import Mathlib

/-!
# Route filter rule resource: shallow embedding and verified properties

Embedding of `azurerm/internal/services/network/resource_arm_route_filter_rule.go`.

The three handlers (`resourceArmRouteFilterRuleCreateUpdate`, `resourceArmRouteFilterRuleRead`,
`resourceArmRouteFilterRuleDelete`) are stateful Go functions over a `*schema.ResourceData` and a
remote SDK client.  Here each handler is a pure function from the resource data and the state of
the remote client to an `Outcome`: the returned error, the resource data after the call, the state
of the remote client after the call, and the ordered list of observable actions (`Event`) the
handler performed (client calls, lock operations, writes to the resource data).

The remote client is an arbitrary deterministic state machine (`RouteFilterRulesClient σ`).
A statement quantified over the client and its state therefore covers every behaviour of the
remote side, including failures and deadline expiry, which the SDK reports as error values.
-/

namespace Network

/-! ## Errors -/

/-- Go `error` values.  `raised` is an error value produced by a collaborator (SDK client, ID
parser); `Errorf` and `ErrorfWrap` are `fmt.Errorf` calls with their format string and string
arguments (`ErrorfWrap` has a trailing error argument printed with `%+v`); `ImportAsExistsError`
is `tf.ImportAsExistsError(resourceName, id)`. -/
inductive Error where
  | raised (msg : String)
  | Errorf (format : String) (args : List String)
  | ErrorfWrap (format : String) (args : List String) (err : Error)
  | ImportAsExistsError (resourceName : String) (id : String)
deriving DecidableEq, Repr

/-! ## SDK data -/

/-- The part of `autorest.Response` the handlers look at: the HTTP status code, `none` when the
embedded `*http.Response` is nil. -/
structure Response where
  StatusCode : Option Nat
deriving DecidableEq, Repr

/-- SDK type `network.RouteFilterRulePropertiesFormat`: `Access` is a string enum,
`RouteFilterRuleType` is a `*string`, `Communities` is a `*[]string`. -/
structure RouteFilterRulePropertiesFormat where
  Access : String
  RouteFilterRuleType : Option String
  Communities : Option (List String)
deriving DecidableEq, Repr

/-- SDK type `network.RouteFilterRule`: the embedded response, the embedded (pointer to)
properties, and the `*string` fields `Name` and `ID`. -/
structure RouteFilterRule where
  Response : Response
  Properties : Option RouteFilterRulePropertiesFormat
  Name : Option String
  ID : Option String
deriving DecidableEq, Repr

/-- Handle of a long-running operation returned by `CreateOrUpdate` and `Delete`. -/
structure Future where
  operation : Nat
deriving DecidableEq, Repr

/-- Go result pair `(network.RouteFilterRule, error)` of `client.Get`, with the client state after
the call. -/
structure GetResult (σ : Type) where
  result : RouteFilterRule
  err : Option Error
  state : σ

/-- Go result pair `(future, error)` of `client.CreateOrUpdate` and `client.Delete`, with the
client state after the call. -/
structure FutureResult (σ : Type) where
  future : Future
  err : Option Error
  state : σ

/-- Result of `future.WaitForCompletionRef`, with the client state after the call. -/
structure WaitResult (σ : Type) where
  err : Option Error
  state : σ

/-- The remote client `meta.(*clients.Client).Network.RouteFilterRulesClient` as a deterministic
state machine over an arbitrary state `σ`.  Arguments follow the SDK order
`(resourceGroupName, routeFilterName, ruleName)`. -/
structure RouteFilterRulesClient (σ : Type) where
  Get : σ → String → String → String → GetResult σ
  CreateOrUpdate : σ → String → String → String → RouteFilterRule → FutureResult σ
  Delete : σ → String → String → String → FutureResult σ
  WaitForCompletionRef : σ → Future → WaitResult σ

/-- Result `*azure.ResourceID` of `azure.ParseAzureResourceID`: the fields the handlers read.
`Path` is the Go map of path segments. -/
structure ResourceID where
  SubscriptionID : String
  ResourceGroup : String
  Path : List (String × String)
deriving DecidableEq, Repr

/-- Go map indexing `id.Path[key]`: the zero value `""` when the key is absent. -/
def ResourceID.path (id : ResourceID) (key : String) : String :=
  (id.Path.lookup key).getD ""

/-! ## Resource data -/

/-- A value handed to `d.Set`: a string, a `*string`, or a list of strings. -/
inductive AttrVal where
  | str (s : String)
  | strPtr (p : Option String)
  | list (l : List String)
deriving DecidableEq, Repr

/-- The `*schema.ResourceData` of this resource: the identifier, the new-resource flag and the six
attributes of the schema. -/
structure ResourceData where
  Id : String
  IsNewResource : Bool
  name : String
  resource_group_name : String
  route_filter_name : String
  access : String
  rule_type : String
  communities : List String
deriving DecidableEq, Repr

/-- Method `d.SetId(id)`. -/
def ResourceData.SetId (d : ResourceData) (id : String) : ResourceData :=
  { d with Id := id }

/-- Method `d.Set(key, value)` for the attributes of this schema.  A nil `*string` stores the zero
value; a key that is not in the schema or a value of the wrong kind leaves the data unchanged (the
handlers drop the error `d.Set` returns). -/
def ResourceData.Set (d : ResourceData) (key : String) (value : AttrVal) : ResourceData :=
  match value with
  | .str s =>
    if key = "name" then { d with name := s }
    else if key = "resource_group_name" then { d with resource_group_name := s }
    else if key = "route_filter_name" then { d with route_filter_name := s }
    else if key = "access" then { d with access := s }
    else if key = "rule_type" then { d with rule_type := s }
    else d
  | .strPtr p =>
    if key = "rule_type" then { d with rule_type := p.getD "" } else d
  | .list l =>
    if key = "communities" then { d with communities := l } else d

/-! ## Observable actions -/

/-- One observable action of a handler, in program order. -/
inductive Event where
  | Get (resourceGroupName : String) (routeFilterName : String) (ruleName : String)
  | CreateOrUpdate (resourceGroupName : String) (routeFilterName : String) (ruleName : String)
      (rule : RouteFilterRule)
  | Delete (resourceGroupName : String) (routeFilterName : String) (ruleName : String)
  | WaitForCompletionRef (future : Future)
  | ByName (name : String) (resourceType : String)
  | UnlockByName (name : String) (resourceType : String)
  | SetId (id : String)
  | Set (key : String) (value : AttrVal)
deriving DecidableEq, Repr

/-- A remote write submission (`CreateOrUpdate`, `Delete`) or the await of one. -/
def Event.isRemoteWrite : Event → Bool
  | .CreateOrUpdate _ _ _ _ => true
  | .Delete _ _ _ => true
  | .WaitForCompletionRef _ => true
  | _ => false

/-- A call to the lock registry (`locks.ByName` or `locks.UnlockByName`). -/
def Event.isLockOp : Event → Bool
  | .ByName _ _ => true
  | .UnlockByName _ _ => true
  | _ => false

/-- A `CreateOrUpdate` submission. -/
def Event.isCreateOrUpdate : Event → Bool
  | .CreateOrUpdate _ _ _ _ => true
  | _ => false

/-- A call of `d.SetId`. -/
def Event.isSetId : Event → Bool
  | .SetId _ => true
  | _ => false

/-- A call of `d.Set` on the attribute `key`. -/
def Event.isSetOf (key : String) : Event → Bool
  | .Set k _ => k == key
  | _ => false

/-- The keys `(name, resourceType)` that a list of actions locks, in order. -/
def lockedKeys : List Event → List (String × String)
  | [] => []
  | .ByName n t :: es => (n, t) :: lockedKeys es
  | _ :: es => lockedKeys es

/-! ## Collaborators that are not part of the file -/

/-- Modelled from the spec: `utils.ResponseWasNotFound` is not under `src/`.  The spec has `Get`
report "not found" as a distinguished outcome, and the acceptance tests compare the response
status code with `http.StatusNotFound`; the response was not-found when it carries status 404. -/
def ResponseWasNotFound (resp : Response) : Bool :=
  resp.StatusCode == some 404

/-- Modelled from the spec: `utils.ExpandStringSlice` is not under `src/`.  The spec describes
`communities` as an ordered, order-preserving sequence of strings; the conversion to the SDK's
`*[]string` keeps every element in order and yields a non-nil pointer. -/
def ExpandStringSlice (input : List String) : Option (List String) :=
  some input

/-- Modelled from the spec: `utils.FlattenStringSlice` is not under `src/`.  The inverse
conversion from the SDK's `*[]string`, keeping every element in order; a nil pointer gives the
empty list. -/
def FlattenStringSlice (input : Option (List String)) : List String :=
  input.getD []

/-- What the handlers receive besides the resource data: the remote client held by `meta`, and the
collaborators whose code is not in the file, taken as parameters: the feature switch
`features.ShouldResourcesBeImported()`, the ID decoder `azure.ParseAzureResourceID`, and the
package constant `routeFilterResourceName`. -/
structure Meta (σ : Type) where
  RouteFilterRulesClient : RouteFilterRulesClient σ
  ShouldResourcesBeImported : Bool
  ParseAzureResourceID : String → Except Error ResourceID
  routeFilterResourceName : String

/-- What a handler call produces: the returned error (`none` for `nil`), the resource data and the
client state after the call, and the actions performed, in order. -/
structure Outcome (σ : Type) where
  err : Option Error
  d : ResourceData
  state : σ
  trace : List Event

/-! ## The handlers -/

/-- Function `resourceArmRouteFilterRuleRead` (source lines 143-176). -/
def resourceArmRouteFilterRuleRead {σ : Type} (m : Meta σ) (d : ResourceData) (s : σ) :
    Outcome σ :=
  let client := m.RouteFilterRulesClient
  match m.ParseAzureResourceID d.Id with
  | .error err => ⟨some err, d, s, []⟩
  | .ok id =>
    let resGroup := id.ResourceGroup
    let rfName := id.path "routeFilters"
    let ruleName := id.path "routeFilterRules"
    let resp := client.Get s resGroup rfName ruleName
    match resp.err with
    | some err =>
      if ResponseWasNotFound resp.result.Response then
        ⟨none, d.SetId "", resp.state, [.Get resGroup rfName ruleName, .SetId ""]⟩
      else
        ⟨some (.ErrorfWrap "Error making Read request on Azure Route Filter Rule %q: %+v"
            [ruleName] err), d, resp.state, [.Get resGroup rfName ruleName]⟩
    | none =>
      let d1 := d.Set "name" (.str ruleName)
      let d2 := d1.Set "resource_group_name" (.str resGroup)
      let d3 := d2.Set "route_filter_name" (.str rfName)
      let sets : List Event :=
        [.Set "name" (.str ruleName), .Set "resource_group_name" (.str resGroup),
         .Set "route_filter_name" (.str rfName)]
      match resp.result.Properties with
      | some props =>
        let d4 := d3.Set "access" (.str props.Access)
        let d5 := d4.Set "rule_type" (.strPtr props.RouteFilterRuleType)
        let d6 := d5.Set "communities" (.list (FlattenStringSlice props.Communities))
        ⟨none, d6, resp.state,
          .Get resGroup rfName ruleName :: sets ++
            [.Set "access" (.str props.Access),
             .Set "rule_type" (.strPtr props.RouteFilterRuleType),
             .Set "communities" (.list (FlattenStringSlice props.Communities))]⟩
      | none => ⟨none, d3, resp.state, .Get resGroup rfName ruleName :: sets⟩

/-- Source lines 106-108 and 113-120 of `resourceArmRouteFilterRuleCreateUpdate`: the
`network.RouteFilterRule` built from the attributes `name`, `access`, `rule_type` and
`communities` and submitted to `CreateOrUpdate`. -/
def submittedRule (d : ResourceData) : RouteFilterRule :=
  let name := d.name
  let access := d.access
  let ruleType := d.rule_type
  let communities := ExpandStringSlice d.communities
  { Response := ⟨none⟩
    Properties := some
      { Access := access, RouteFilterRuleType := some ruleType, Communities := communities }
    Name := some name
    ID := none }

/-- Source line 122: `future, err := client.CreateOrUpdate(ctx, resGroup, rfName, name, rule)`,
issued in client state `s`. -/
def createUpdateFuture {σ : Type} (m : Meta σ) (d : ResourceData) (s : σ) : FutureResult σ :=
  m.RouteFilterRulesClient.CreateOrUpdate s d.resource_group_name d.route_filter_name d.name
    (submittedRule d)

/-- Source line 127: `future.WaitForCompletionRef(ctx, client.Client)` on the future of line
122. -/
def createUpdateWait {σ : Type} (m : Meta σ) (d : ResourceData) (s : σ) : WaitResult σ :=
  m.RouteFilterRulesClient.WaitForCompletionRef (createUpdateFuture m d s).state
    (createUpdateFuture m d s).future

/-- Source line 131: `read, err := client.Get(ctx, resGroup, rfName, name)`, the read-back after
the await of line 127. -/
def createUpdateReadBack {σ : Type} (m : Meta σ) (d : ResourceData) (s : σ) : GetResult σ :=
  m.RouteFilterRulesClient.Get (createUpdateWait m d s).state d.resource_group_name
    d.route_filter_name d.name

/-- Source lines 122-140 of `resourceArmRouteFilterRuleCreateUpdate`: what runs between
`locks.ByName` and the deferred `locks.UnlockByName`, given the rule of lines 113-120. -/
def createUpdateLocked {σ : Type} (m : Meta σ) (d : ResourceData) (s : σ) : Outcome σ :=
  let name := d.name
  let rfName := d.route_filter_name
  let resGroup := d.resource_group_name
  let rule := submittedRule d
  let submit : Event := .CreateOrUpdate resGroup rfName name rule
  let future := createUpdateFuture m d s
  match future.err with
  | some err =>
    ⟨some (.ErrorfWrap
        "Error Creating/Updating Route Filter Rule %q (Route Filter %q / Resource Group %q): %+v"
        [name, rfName, resGroup] err), d, future.state, [submit]⟩
  | none =>
    let waited := createUpdateWait m d s
    match waited.err with
    | some err =>
      ⟨some (.ErrorfWrap
          "Error waiting for completion for Route Filter Rule %q (Route Filter %q / Resource Group %q): %+v"
          [name, rfName, resGroup] err), d, waited.state,
        [submit, .WaitForCompletionRef future.future]⟩
    | none =>
      let read := createUpdateReadBack m d s
      let calls : List Event :=
        [submit, .WaitForCompletionRef future.future, .Get resGroup rfName name]
      match read.err with
      | some err => ⟨some err, d, read.state, calls⟩
      | none =>
        match read.result.ID with
        | none =>
          ⟨some (.Errorf
              "Cannot read Route Filter Rule %q (Route Filter %q / Resource Group %q) ID"
              [rfName, name, resGroup]), d, read.state, calls⟩
        | some id =>
          let r := resourceArmRouteFilterRuleRead m (d.SetId id) read.state
          ⟨r.err, r.d, r.state, calls ++ .SetId id :: r.trace⟩

/-- Source lines 106-140 of `resourceArmRouteFilterRuleCreateUpdate`: `locks.ByName`, the locked
section, and the deferred `locks.UnlockByName`, which runs when the handler returns. -/
def createUpdateWrite {σ : Type} (m : Meta σ) (d : ResourceData) (s : σ) : Outcome σ :=
  let rfName := d.route_filter_name
  let r := createUpdateLocked m d s
  ⟨r.err, r.d, r.state,
    .ByName rfName m.routeFilterResourceName :: r.trace ++
      [.UnlockByName rfName m.routeFilterResourceName]⟩

/-- Source line 94: `existing, err := client.Get(ctx, resGroup, rfName, name)`, the pre-check of
the import guard, issued in client state `s`. -/
def createUpdateExisting {σ : Type} (m : Meta σ) (d : ResourceData) (s : σ) : GetResult σ :=
  m.RouteFilterRulesClient.Get s d.resource_group_name d.route_filter_name d.name

/-- Source line 156 of `resourceArmRouteFilterRuleRead`:
`resp, err := client.Get(ctx, resGroup, rfName, ruleName)` for the decoded identifier `id`, issued
in client state `s`. -/
def readResp {σ : Type} (m : Meta σ) (id : ResourceID) (s : σ) : GetResult σ :=
  m.RouteFilterRulesClient.Get s id.ResourceGroup (id.path "routeFilters")
    (id.path "routeFilterRules")

/-- The client state in which `resourceArmRouteFilterRuleCreateUpdate` reaches source line 106:
the state after the pre-check `Get` when the import guard of line 93 runs, the initial state
otherwise. -/
def stateAtWrite {σ : Type} (m : Meta σ) (d : ResourceData) (s : σ) : σ :=
  if m.ShouldResourcesBeImported && d.IsNewResource then (createUpdateExisting m d s).state else s

/-- Function `resourceArmRouteFilterRuleCreateUpdate` (source lines 84-141). -/
def resourceArmRouteFilterRuleCreateUpdate {σ : Type} (m : Meta σ) (d : ResourceData) (s : σ) :
    Outcome σ :=
  let name := d.name
  let rfName := d.route_filter_name
  let resGroup := d.resource_group_name
  if m.ShouldResourcesBeImported && d.IsNewResource then
    let existing := createUpdateExisting m d s
    let check : Event := .Get resGroup rfName name
    let proceed : Outcome σ :=
      let r := createUpdateWrite m d existing.state
      ⟨r.err, r.d, r.state, check :: r.trace⟩
    match existing.err, ResponseWasNotFound existing.result.Response with
    | some err, false =>
      ⟨some (.ErrorfWrap
          "Error checking for presence of existing Route Filter Rule %q (Route Filter %q / Resource Group %q): %+v"
          [name, rfName, resGroup] err), d, existing.state, [check]⟩
    | _, _ =>
      match existing.result.ID with
      | some id =>
        if id ≠ "" then
          ⟨some (.ImportAsExistsError "azurerm_route_filter_rule" id), d, existing.state, [check]⟩
        else proceed
      | none => proceed
  else
    createUpdateWrite m d s

/-- Function `resourceArmRouteFilterRuleDelete` (source lines 178-204). -/
def resourceArmRouteFilterRuleDelete {σ : Type} (m : Meta σ) (d : ResourceData) (s : σ) :
    Outcome σ :=
  let client := m.RouteFilterRulesClient
  match m.ParseAzureResourceID d.Id with
  | .error err => ⟨some err, d, s, []⟩
  | .ok id =>
    let resGroup := id.ResourceGroup
    let rfName := id.path "routeFilters"
    let ruleName := id.path "routeFilterRules"
    let lock : Event := .ByName rfName m.routeFilterResourceName
    let unlock : Event := .UnlockByName rfName m.routeFilterResourceName
    let future := client.Delete s resGroup rfName ruleName
    match future.err with
    | some err =>
      ⟨some (.ErrorfWrap
          "Error deleting Route Filter Rule %q (Route Filter %q / Resource Group %q): %+v"
          [ruleName, rfName, resGroup] err), d, future.state,
        [lock, .Delete resGroup rfName ruleName, unlock]⟩
    | none =>
      let waited := client.WaitForCompletionRef future.state future.future
      match waited.err with
      | some err =>
        ⟨some (.ErrorfWrap
            "Error waiting for deletion of RouteFilterRule %q (RouteFilterRule Table %q / Resource Group %q): %+v"
            [ruleName, rfName, resGroup] err), d, waited.state,
          [lock, .Delete resGroup rfName ruleName, .WaitForCompletionRef future.future, unlock]⟩
      | none =>
        ⟨none, d, waited.state,
          [lock, .Delete resGroup rfName ruleName, .WaitForCompletionRef future.future, unlock]⟩

/-! ## Sample collaborators, used to instantiate the theorems -/

/-- One scripted reply of the remote client. -/
inductive Reply where
  | get (result : RouteFilterRule) (err : Option Error)
  | future (future : Future) (err : Option Error)
  | wait (err : Option Error)
deriving DecidableEq, Repr

/-- The response of a transport failure: no HTTP response at all. -/
def noResponse : RouteFilterRule :=
  { Response := ⟨none⟩, Properties := none, Name := none, ID := none }

/-- A remote client that answers each call with the next reply of a script; a reply of the wrong
kind, or an exhausted script, is a transport failure. -/
def scriptedClient : RouteFilterRulesClient (List Reply) where
  Get := fun s _ _ _ =>
    match s with
    | .get r e :: rest => ⟨r, e, rest⟩
    | _ => ⟨noResponse, some (.raised "connection failed"), s.tail⟩
  CreateOrUpdate := fun s _ _ _ _ =>
    match s with
    | .future f e :: rest => ⟨f, e, rest⟩
    | _ => ⟨⟨0⟩, some (.raised "connection failed"), s.tail⟩
  Delete := fun s _ _ _ =>
    match s with
    | .future f e :: rest => ⟨f, e, rest⟩
    | _ => ⟨⟨0⟩, some (.raised "connection failed"), s.tail⟩
  WaitForCompletionRef := fun s _ =>
    match s with
    | .wait e :: rest => ⟨e, rest⟩
    | _ => ⟨some (.raised "connection failed"), s.tail⟩

/-- The identifier of rule `rule1` of filter `rf1` in group `rg1`. -/
def sampleId : String :=
  "/subscriptions/sub1/resourceGroups/rg1/providers/Microsoft.Network/routeFilters/rf1/routeFilterRules/rule1"

/-- An ID decoder that knows `sampleId` and rejects every other string. -/
def sampleParse (id : String) : Except Error ResourceID :=
  if id = sampleId then
    .ok { SubscriptionID := "sub1", ResourceGroup := "rg1",
          Path := [("providers", "Microsoft.Network"), ("routeFilters", "rf1"),
                   ("routeFilterRules", "rule1")] }
  else .error (.raised "Cannot parse Azure ID")

/-- Collaborators around the scripted client; `imp` is the import-protection switch. -/
def scriptedMeta (imp : Bool) : Meta (List Reply) where
  RouteFilterRulesClient := scriptedClient
  ShouldResourcesBeImported := imp
  ParseAzureResourceID := sampleParse
  routeFilterResourceName := "azurerm_route_filter"

/-- The configuration of the acceptance test `basic`: rule `rule1`, access `Allow`. -/
def sampleData (id : String) (isNew : Bool) : ResourceData :=
  { Id := id, IsNewResource := isNew, name := "rule1", resource_group_name := "rg1",
    route_filter_name := "rf1", access := "Allow", rule_type := "Community",
    communities := ["12076:53004"] }

/-- The configuration of the acceptance test `basicDeny`: the same rule with access `Deny` and
another community. -/
def sampleDataDeny (id : String) (isNew : Bool) : ResourceData :=
  { sampleData id isNew with access := "Deny", communities := ["12076:52004"] }

/-- A found rule as the remote returns it. -/
def sampleRule (access : String) (communities : List String) : RouteFilterRule :=
  { Response := ⟨some 200⟩
    Properties := some
      { Access := access, RouteFilterRuleType := some "Community", Communities := some communities }
    Name := some "rule1"
    ID := some sampleId }

/-- The result of a `Get` on a rule that does not exist. -/
def notFoundRule : RouteFilterRule :=
  { Response := ⟨some 404⟩, Properties := none, Name := none, ID := none }

/-- A script in which the pre-check finds nothing, the submission and the await succeed, and the
read-back succeeds without an identifier. -/
def scriptNoId : List Reply :=
  [.get notFoundRule (some (.raised "not found")), .future ⟨1⟩ none, .wait none,
   .get { sampleRule "Allow" ["12076:53004"] with ID := none } none]

/-- A script in which the submission, the await and the read-back succeed, and the rule is gone
when the final Read looks for it. -/
def scriptVanishes : List Reply :=
  [.future ⟨1⟩ none, .wait none, .get (sampleRule "Allow" ["12076:53004"]) none,
   .get notFoundRule (some (.raised "not found"))]

/-- A script in which every call succeeds and the rule is returned as submitted. -/
def scriptSuccess : List Reply :=
  [.future ⟨1⟩ none, .wait none, .get (sampleRule "Allow" ["12076:53004"]) none,
   .get (sampleRule "Allow" ["12076:53004"]) none]

/-- A remote that keeps the submitted properties of every rule under the rule key. -/
abbrev Store := List ((String × String × String) × RouteFilterRulePropertiesFormat)

/-- The identifier the store remote reports for a rule key. -/
def storeEncode (g : String) (f : String) (r : String) : String :=
  "/subscriptions/sub1/resourceGroups/" ++ g ++ "/providers/Microsoft.Network/routeFilters/" ++ f
    ++ "/routeFilterRules/" ++ r

/-- The store remote: `CreateOrUpdate` stores the submitted properties under the key, `Get`
returns what is stored with the identifier of the key or reports not-found, `Delete` removes the
key, and every operation completes at once. -/
def storeClient : RouteFilterRulesClient Store where
  Get := fun s g f r =>
    match s.lookup (g, f, r) with
    | some p =>
      ⟨{ Response := ⟨some 200⟩, Properties := some p, Name := some r,
         ID := some (storeEncode g f r) }, none, s⟩
    | none => ⟨notFoundRule, some (.raised "not found"), s⟩
  CreateOrUpdate := fun s g f r rule =>
    match rule.Properties with
    | some p => ⟨⟨0⟩, none, ((g, f, r), p) :: s⟩
    | none => ⟨⟨0⟩, some (.raised "properties are required"), s⟩
  Delete := fun s g f r => ⟨⟨0⟩, none, s.filter (fun e => e.1 ≠ (g, f, r))⟩
  WaitForCompletionRef := fun s _ => ⟨none, s⟩

/-- Collaborators around the store remote; `imp` is the import-protection switch. -/
def storeMeta (imp : Bool) : Meta Store where
  RouteFilterRulesClient := storeClient
  ShouldResourcesBeImported := imp
  ParseAzureResourceID := sampleParse
  routeFilterResourceName := "azurerm_route_filter"

/-! ## Vocabulary of the properties -/

/-- The six attributes of a rule as the declarative engine sees them. -/
structure Rule where
  name : String
  resource_group_name : String
  route_filter_name : String
  access : String
  rule_type : String
  communities : List String
deriving DecidableEq, Repr

/-- The attributes held by the resource data. -/
def ResourceData.attributes (d : ResourceData) : Rule :=
  { name := d.name, resource_group_name := d.resource_group_name,
    route_filter_name := d.route_filter_name, access := d.access, rule_type := d.rule_type,
    communities := d.communities }

/-- The remote is faithful at the rule key `(g, f, r)`: `stored` reads off the client state the
properties held under that key, and `ident s` is the identifier the remote reports for the key
in client state `s`, which decodes to the key; a successful `CreateOrUpdate` on the key stores
the submitted properties, a successful await keeps them, and `Get` on the key returns the stored
properties with the identifier `ident s` and keeps them. -/
structure FaithfulAt {σ : Type} (m : Meta σ)
    (stored : σ → Option RouteFilterRulePropertiesFormat) (ident : σ → String)
    (g : String) (f : String) (r : String) : Prop where
  decodes : ∀ s, ∃ rid, m.ParseAzureResourceID (ident s) = .ok rid ∧ rid.ResourceGroup = g ∧
    rid.path "routeFilters" = f ∧ rid.path "routeFilterRules" = r
  put_stores : ∀ s rule, (m.RouteFilterRulesClient.CreateOrUpdate s g f r rule).err = none →
    stored (m.RouteFilterRulesClient.CreateOrUpdate s g f r rule).state = rule.Properties
  wait_keeps : ∀ s fut, (m.RouteFilterRulesClient.WaitForCompletionRef s fut).err = none →
    stored (m.RouteFilterRulesClient.WaitForCompletionRef s fut).state = stored s
  get_stored : ∀ s p, stored s = some p →
    (m.RouteFilterRulesClient.Get s g f r).err = none ∧
    (m.RouteFilterRulesClient.Get s g f r).result.ID = some (ident s) ∧
    (m.RouteFilterRulesClient.Get s g f r).result.Properties = some p ∧
    stored (m.RouteFilterRulesClient.Get s g f r).state = some p

/-- The resource data of an import (`schema.ImportStatePassthrough`): only the identifier is
set, every attribute has its zero value. -/
def bareData (id : String) : ResourceData :=
  { Id := id, IsNewResource := false, name := "", resource_group_name := "",
    route_filter_name := "", access := "", rule_type := "", communities := [] }

/-- Lock discipline of one handler run on the lock key `(name, resourceType)`: either the run
touches neither the lock registry nor the remote write path, or its actions are a prefix free of
lock operations and remote writes, then `locks.ByName` on the key, then a middle section free of
lock operations, then `locks.UnlockByName` on the key as the last action. -/
def WritesInsideLock (name : String) (resourceType : String) (tr : List Event) : Prop :=
  (∀ e ∈ tr, e.isRemoteWrite = false ∧ e.isLockOp = false) ∨
  ∃ pre mid, tr = pre ++ .ByName name resourceType :: mid ++ [.UnlockByName name resourceType] ∧
    (∀ e ∈ pre, e.isRemoteWrite = false ∧ e.isLockOp = false) ∧
    (∀ e ∈ mid, e.isLockOp = false)

/-- The import guard of source lines 93-104 stops the handler: the pre-check fails with a
response that is not not-found, or it reports a non-empty identifier. -/
def guardStops {σ : Type} (m : Meta σ) (d : ResourceData) (s : σ) : Prop :=
  (m.ShouldResourcesBeImported && d.IsNewResource) = true ∧
    (((createUpdateExisting m d s).err ≠ none ∧
        ResponseWasNotFound (createUpdateExisting m d s).result.Response = false) ∨
      ∃ id, (createUpdateExisting m d s).result.ID = some id ∧ id ≠ "")

/-! ## The declared schema -/

/-- The value types `schema.TypeString` and `schema.TypeList` of the plugin SDK. -/
inductive ValueType where
  | TypeString
  | TypeList
deriving DecidableEq, Repr

/-- The element schema of a list attribute (`Elem: &schema.Schema`), with the fields the resource
declares: `Type` and `ValidateFunc`. -/
structure ElemSchema where
  ValueType : ValueType
  ValidateFunc : Option (String → Bool)

/-- SDK type `schema.Schema` with the fields the resource declares: `Type`, `Required`,
`ForceNew`, `ValidateFunc`, `MinItems` and `Elem`.  A field the declaration leaves out has its Go
zero value. -/
structure Schema where
  ValueType : ValueType
  Required : Bool := false
  ForceNew : Bool := false
  ValidateFunc : Option (String → Bool) := none
  MinItems : Nat := 0
  Elem : Option ElemSchema := none

/-- SDK validator `validation.StringIsNotEmpty`: it passes exactly on the strings other than
`""`. -/
def StringIsNotEmpty (v : String) : Bool :=
  v != ""

/-- SDK validator `validation.StringInSlice(valid, ignoreCase)`: it passes when the value equals
an element of `valid`, or, with `ignoreCase`, equals one after lower-casing both. -/
def StringInSlice (valid : List String) (ignoreCase : Bool) (v : String) : Bool :=
  valid.any (fun str => v == str || (ignoreCase && v.toLower == str.toLower))

/-- SDK constant `network.Allow`. -/
def Allow : String := "Allow"

/-- SDK constant `network.Deny`. -/
def Deny : String := "Deny"

/-- The schema map of `resourceArmRouteFilterRule` (source lines 37-80).  The entry of
`resource_group_name` is `azure.SchemaResourceGroupName()`, whose code is not in the file; it is
the parameter `resourceGroupName`. -/
def resourceArmRouteFilterRuleSchema (resourceGroupName : Schema) : List (String × Schema) :=
  [ ("name",
      { ValueType := .TypeString, Required := true, ForceNew := true,
        ValidateFunc := some StringIsNotEmpty }),
    ("resource_group_name", resourceGroupName),
    ("route_filter_name",
      { ValueType := .TypeString, Required := true, ForceNew := true,
        ValidateFunc := some StringIsNotEmpty }),
    ("access",
      { ValueType := .TypeString, Required := true,
        ValidateFunc := some (StringInSlice [Allow, Deny] false) }),
    ("rule_type",
      { ValueType := .TypeString, Required := true,
        ValidateFunc := some (StringInSlice ["Community"] false) }),
    ("communities",
      { ValueType := .TypeList, Required := true, MinItems := 1,
        Elem := some { ValueType := .TypeString, ValidateFunc := some StringIsNotEmpty } }) ]

/-- Modelled from the spec: `azure.SchemaResourceGroupName()` is not under `src/`.  The spec
declares `resource_group_name` as "string, required, immutable". -/
def SchemaResourceGroupName : Schema :=
  { ValueType := .TypeString, Required := true, ForceNew := true }

/-- A configured value of an attribute: a string or a list of strings. -/
inductive ConfigValue where
  | string (s : String)
  | list (items : List String)
deriving DecidableEq, Repr

/-- An attribute set over the six attributes of the schema; `none` is an attribute that is not
set. -/
structure Config where
  name : Option ConfigValue
  resource_group_name : Option ConfigValue
  route_filter_name : Option ConfigValue
  access : Option ConfigValue
  rule_type : Option ConfigValue
  communities : Option ConfigValue
deriving DecidableEq, Repr

/-- The value an attribute set gives to a key. -/
def Config.get (c : Config) (key : String) : Option ConfigValue :=
  if key = "name" then c.name
  else if key = "resource_group_name" then c.resource_group_name
  else if key = "route_filter_name" then c.route_filter_name
  else if key = "access" then c.access
  else if key = "rule_type" then c.rule_type
  else if key = "communities" then c.communities
  else none

/-- Validation of one attribute against its schema, as the plugin SDK performs it: an attribute
that is not set passes unless it is `Required`; a set attribute must have the declared type, a
string must pass `ValidateFunc`, and a list must have at least `MinItems` elements, each passing
the `ValidateFunc` of `Elem`. -/
def validateField (sch : Schema) (v : Option ConfigValue) : Bool :=
  match v with
  | none => !sch.Required
  | some (.string s) =>
    sch.ValueType == .TypeString &&
      (match sch.ValidateFunc with
        | some f => f s
        | none => true)
  | some (.list items) =>
    sch.ValueType == .TypeList && decide (sch.MinItems ≤ items.length) &&
      (match sch.Elem with
        | some e =>
          e.ValueType == .TypeString &&
            items.all (fun i =>
              match e.ValidateFunc with
              | some f => f i
              | none => true)
        | none => true)

/-- A schema map accepts an attribute set when every declared attribute validates. -/
def schemaAccepts (schema : List (String × Schema)) (c : Config) : Bool :=
  schema.all (fun entry => validateField entry.2 (c.get entry.1))

/-- Whether changing the attribute `key` forces a new resource. -/
def forcesNew (schema : List (String × Schema)) (key : String) : Bool :=
  match schema.lookup key with
  | some sch => sch.ForceNew
  | none => false

/-- The attribute is set to a string other than `""`. -/
def isNonEmptyString (v : Option ConfigValue) : Bool :=
  match v with
  | some (.string s) => s != ""
  | _ => false

/-- The attribute is set to exactly the string `s`. -/
def isString (s : String) (v : Option ConfigValue) : Bool :=
  match v with
  | some (.string t) => t == s
  | _ => false

/-- The attribute is set to a list of at least one element, all of them other than `""`. -/
def isNonEmptyListOfNonEmpty (v : Option ConfigValue) : Bool :=
  match v with
  | some (.list items) => decide (1 ≤ items.length) && items.all (fun i => i != "")
  | _ => false

/-- The acceptance condition in the words of the specification: `name` and `route_filter_name`
are non-empty strings, `access` is exactly `Allow` or `Deny`, `rule_type` is exactly `Community`,
and `communities` is a list of at least one element whose elements are all non-empty strings. -/
def specAccepts (c : Config) : Bool :=
  isNonEmptyString c.name && isNonEmptyString c.route_filter_name &&
    (isString "Allow" c.access || isString "Deny" c.access) &&
    isString "Community" c.rule_type && isNonEmptyListOfNonEmpty c.communities

/-- The attribute set of the acceptance test `basic`, with `resource_group_name` as given. -/
def sampleConfig (group : Option ConfigValue) : Config :=
  { name := some (.string "rule1"), resource_group_name := group,
    route_filter_name := some (.string "rf1"), access := some (.string "Allow"),
    rule_type := some (.string "Community"), communities := some (.list ["12076:53004"]) }

/-! ## Order of the release and the read-back -/

/-- The actions that follow the first await in a list of actions. -/
def afterAwait : List Event → List Event
  | [] => []
  | .WaitForCompletionRef _ :: es => es
  | _ :: es => afterAwait es

/-- In a list of actions, `locks.UnlockByName` occurs before any `Get`. -/
def unlockPrecedesGet : List Event → Bool
  | [] => false
  | .UnlockByName _ _ :: _ => true
  | .Get _ _ _ :: _ => false
  | _ :: es => unlockPrecedesGet es

/-- The step order in the words of the specification: after the await of the submitted
operation, the lock is released before the read-back `Get` is issued. -/
def releasedBeforeReadBack (tr : List Event) : Bool :=
  unlockPrecedesGet (afterAwait tr)

/-! ## Lemmas about the handlers -/

/-- Read, decode failure (source lines 148-151). -/
theorem read_of_parse_error {σ : Type} (m : Meta σ) (d : ResourceData) (s : σ) (err : Error)
    (h : m.ParseAzureResourceID d.Id = .error err) :
    resourceArmRouteFilterRuleRead m d s = ⟨some err, d, s, []⟩ := by
  unfold resourceArmRouteFilterRuleRead
  simp [h]

/-- Read, `Get` fails with a not-found response (source lines 157-161). -/
theorem read_of_not_found {σ : Type} (m : Meta σ) (d : ResourceData) (s : σ) (rid : ResourceID)
    (h : m.ParseAzureResourceID d.Id = .ok rid)
    (herr : (m.RouteFilterRulesClient.Get s rid.ResourceGroup (rid.path "routeFilters")
      (rid.path "routeFilterRules")).err ≠ none)
    (hnf : ResponseWasNotFound (m.RouteFilterRulesClient.Get s rid.ResourceGroup
      (rid.path "routeFilters") (rid.path "routeFilterRules")).result.Response = true) :
    resourceArmRouteFilterRuleRead m d s
      = ⟨none, d.SetId "",
          (m.RouteFilterRulesClient.Get s rid.ResourceGroup (rid.path "routeFilters")
            (rid.path "routeFilterRules")).state,
          [.Get rid.ResourceGroup (rid.path "routeFilters") (rid.path "routeFilterRules"),
           .SetId ""]⟩ := by
  unfold resourceArmRouteFilterRuleRead
  cases hg : (m.RouteFilterRulesClient.Get s rid.ResourceGroup (rid.path "routeFilters")
      (rid.path "routeFilterRules")).err with
  | none => exact absurd hg herr
  | some e => simp [h, hg, hnf]

/-- Read, `Get` fails otherwise (source line 162). -/
theorem read_of_get_error {σ : Type} (m : Meta σ) (d : ResourceData) (s : σ) (rid : ResourceID)
    (err : Error)
    (h : m.ParseAzureResourceID d.Id = .ok rid)
    (herr : (m.RouteFilterRulesClient.Get s rid.ResourceGroup (rid.path "routeFilters")
      (rid.path "routeFilterRules")).err = some err)
    (hnf : ResponseWasNotFound (m.RouteFilterRulesClient.Get s rid.ResourceGroup
      (rid.path "routeFilters") (rid.path "routeFilterRules")).result.Response = false) :
    resourceArmRouteFilterRuleRead m d s
      = ⟨some (.ErrorfWrap "Error making Read request on Azure Route Filter Rule %q: %+v"
            [rid.path "routeFilterRules"] err), d,
          (m.RouteFilterRulesClient.Get s rid.ResourceGroup (rid.path "routeFilters")
            (rid.path "routeFilterRules")).state,
          [.Get rid.ResourceGroup (rid.path "routeFilters") (rid.path "routeFilterRules")]⟩ := by
  unfold resourceArmRouteFilterRuleRead
  simp [h, herr, hnf]

/-- Read, `Get` succeeds and the rule has properties (source lines 165-175). -/
theorem read_of_found {σ : Type} (m : Meta σ) (d : ResourceData) (s : σ) (rid : ResourceID)
    (props : RouteFilterRulePropertiesFormat)
    (h : m.ParseAzureResourceID d.Id = .ok rid)
    (herr : (m.RouteFilterRulesClient.Get s rid.ResourceGroup (rid.path "routeFilters")
      (rid.path "routeFilterRules")).err = none)
    (hp : (m.RouteFilterRulesClient.Get s rid.ResourceGroup (rid.path "routeFilters")
      (rid.path "routeFilterRules")).result.Properties = some props) :
    resourceArmRouteFilterRuleRead m d s
      = ⟨none,
          { Id := d.Id, IsNewResource := d.IsNewResource, name := rid.path "routeFilterRules",
            resource_group_name := rid.ResourceGroup, route_filter_name := rid.path "routeFilters",
            access := props.Access, rule_type := props.RouteFilterRuleType.getD "",
            communities := FlattenStringSlice props.Communities },
          (m.RouteFilterRulesClient.Get s rid.ResourceGroup (rid.path "routeFilters")
            (rid.path "routeFilterRules")).state,
          [.Get rid.ResourceGroup (rid.path "routeFilters") (rid.path "routeFilterRules"),
           .Set "name" (.str (rid.path "routeFilterRules")),
           .Set "resource_group_name" (.str rid.ResourceGroup),
           .Set "route_filter_name" (.str (rid.path "routeFilters")),
           .Set "access" (.str props.Access),
           .Set "rule_type" (.strPtr props.RouteFilterRuleType),
           .Set "communities" (.list (FlattenStringSlice props.Communities))]⟩ := by
  unfold resourceArmRouteFilterRuleRead
  simp [h, herr, hp, ResourceData.Set]

/-- Read, `Get` succeeds and the rule has no properties (source lines 165-169, 175). -/
theorem read_of_found_bare {σ : Type} (m : Meta σ) (d : ResourceData) (s : σ)
    (rid : ResourceID)
    (h : m.ParseAzureResourceID d.Id = .ok rid)
    (herr : (m.RouteFilterRulesClient.Get s rid.ResourceGroup (rid.path "routeFilters")
      (rid.path "routeFilterRules")).err = none)
    (hp : (m.RouteFilterRulesClient.Get s rid.ResourceGroup (rid.path "routeFilters")
      (rid.path "routeFilterRules")).result.Properties = none) :
    resourceArmRouteFilterRuleRead m d s
      = ⟨none,
          { d with name := rid.path "routeFilterRules", resource_group_name := rid.ResourceGroup,
                   route_filter_name := rid.path "routeFilters" },
          (m.RouteFilterRulesClient.Get s rid.ResourceGroup (rid.path "routeFilters")
            (rid.path "routeFilterRules")).state,
          [.Get rid.ResourceGroup (rid.path "routeFilters") (rid.path "routeFilterRules"),
           .Set "name" (.str (rid.path "routeFilterRules")),
           .Set "resource_group_name" (.str rid.ResourceGroup),
           .Set "route_filter_name" (.str (rid.path "routeFilters"))]⟩ := by
  unfold resourceArmRouteFilterRuleRead
  simp [h, herr, hp, ResourceData.Set]

/-- `resourceArmRouteFilterRuleRead` performs no lock operation and no remote write. -/
theorem read_trace_quiet {σ : Type} (m : Meta σ) (d : ResourceData) (s : σ) :
    ∀ e ∈ (resourceArmRouteFilterRuleRead m d s).trace,
      e.isRemoteWrite = false ∧ e.isLockOp = false := by
  cases h : m.ParseAzureResourceID d.Id with
  | error err => simp [read_of_parse_error m d s err h]
  | ok rid =>
    cases herr : (m.RouteFilterRulesClient.Get s rid.ResourceGroup (rid.path "routeFilters")
        (rid.path "routeFilterRules")).err with
    | some err =>
      cases hnf : ResponseWasNotFound (m.RouteFilterRulesClient.Get s rid.ResourceGroup
          (rid.path "routeFilters") (rid.path "routeFilterRules")).result.Response with
      | true =>
        rw [read_of_not_found m d s rid h (by simp [herr]) hnf]
        simp [Event.isRemoteWrite, Event.isLockOp]
      | false =>
        rw [read_of_get_error m d s rid err h herr hnf]
        simp [Event.isRemoteWrite, Event.isLockOp]
    | none =>
      cases hp : (m.RouteFilterRulesClient.Get s rid.ResourceGroup (rid.path "routeFilters")
          (rid.path "routeFilterRules")).result.Properties with
      | some props =>
        rw [read_of_found m d s rid props h herr hp]
        simp [Event.isRemoteWrite, Event.isLockOp]
      | none =>
        rw [read_of_found_bare m d s rid h herr hp]
        simp [Event.isRemoteWrite, Event.isLockOp]

/-- The locked section when the submission fails (source lines 122-125). -/
theorem locked_of_submit_error {σ : Type} (m : Meta σ) (d : ResourceData) (s : σ) (err : Error)
    (h : (createUpdateFuture m d s).err = some err) :
    createUpdateLocked m d s
      = ⟨some (.ErrorfWrap
            "Error Creating/Updating Route Filter Rule %q (Route Filter %q / Resource Group %q): %+v"
            [d.name, d.route_filter_name, d.resource_group_name] err), d,
          (createUpdateFuture m d s).state,
          [.CreateOrUpdate d.resource_group_name d.route_filter_name d.name
            (submittedRule d)]⟩ := by
  unfold createUpdateLocked
  simp [h]

/-- The locked section when the await fails (source lines 127-129). -/
theorem locked_of_wait_error {σ : Type} (m : Meta σ) (d : ResourceData) (s : σ) (err : Error)
    (hf : (createUpdateFuture m d s).err = none)
    (h : (createUpdateWait m d s).err = some err) :
    createUpdateLocked m d s
      = ⟨some (.ErrorfWrap
            "Error waiting for completion for Route Filter Rule %q (Route Filter %q / Resource Group %q): %+v"
            [d.name, d.route_filter_name, d.resource_group_name] err), d,
          (createUpdateWait m d s).state,
          [.CreateOrUpdate d.resource_group_name d.route_filter_name d.name (submittedRule d),
           .WaitForCompletionRef (createUpdateFuture m d s).future]⟩ := by
  unfold createUpdateLocked
  simp [hf, h]

/-- The locked section when the read-back `Get` fails (source lines 131-134). -/
theorem locked_of_read_error {σ : Type} (m : Meta σ) (d : ResourceData) (s : σ) (err : Error)
    (hf : (createUpdateFuture m d s).err = none)
    (hw : (createUpdateWait m d s).err = none)
    (h : (createUpdateReadBack m d s).err = some err) :
    createUpdateLocked m d s
      = ⟨some err, d, (createUpdateReadBack m d s).state,
          [.CreateOrUpdate d.resource_group_name d.route_filter_name d.name (submittedRule d),
           .WaitForCompletionRef (createUpdateFuture m d s).future,
           .Get d.resource_group_name d.route_filter_name d.name]⟩ := by
  unfold createUpdateLocked
  simp [hf, hw, h]

/-- The locked section when the read-back reports no identifier (source lines 135-137). -/
theorem locked_of_no_id {σ : Type} (m : Meta σ) (d : ResourceData) (s : σ)
    (hf : (createUpdateFuture m d s).err = none)
    (hw : (createUpdateWait m d s).err = none)
    (hr : (createUpdateReadBack m d s).err = none)
    (h : (createUpdateReadBack m d s).result.ID = none) :
    createUpdateLocked m d s
      = ⟨some (.Errorf
            "Cannot read Route Filter Rule %q (Route Filter %q / Resource Group %q) ID"
            [d.route_filter_name, d.name, d.resource_group_name]), d,
          (createUpdateReadBack m d s).state,
          [.CreateOrUpdate d.resource_group_name d.route_filter_name d.name (submittedRule d),
           .WaitForCompletionRef (createUpdateFuture m d s).future,
           .Get d.resource_group_name d.route_filter_name d.name]⟩ := by
  unfold createUpdateLocked
  simp [hf, hw, hr, h]

/-- The locked section when the read-back reports an identifier (source lines 138-140). -/
theorem locked_of_id {σ : Type} (m : Meta σ) (d : ResourceData) (s : σ) (id : String)
    (hf : (createUpdateFuture m d s).err = none)
    (hw : (createUpdateWait m d s).err = none)
    (hr : (createUpdateReadBack m d s).err = none)
    (h : (createUpdateReadBack m d s).result.ID = some id) :
    createUpdateLocked m d s
      = ⟨(resourceArmRouteFilterRuleRead m (d.SetId id) (createUpdateReadBack m d s).state).err,
          (resourceArmRouteFilterRuleRead m (d.SetId id) (createUpdateReadBack m d s).state).d,
          (resourceArmRouteFilterRuleRead m (d.SetId id)
            (createUpdateReadBack m d s).state).state,
          [.CreateOrUpdate d.resource_group_name d.route_filter_name d.name (submittedRule d),
           .WaitForCompletionRef (createUpdateFuture m d s).future,
           .Get d.resource_group_name d.route_filter_name d.name] ++
          .SetId id :: (resourceArmRouteFilterRuleRead m (d.SetId id)
            (createUpdateReadBack m d s).state).trace⟩ := by
  unfold createUpdateLocked
  simp [hf, hw, hr, h]

/-- When the import guard stops the handler, it returns an error after the single pre-check
`Get` and leaves the resource data unchanged. -/
theorem createUpdate_of_guard_stops {σ : Type} (m : Meta σ) (d : ResourceData) (s : σ)
    (h : guardStops m d s) :
    (resourceArmRouteFilterRuleCreateUpdate m d s).err ≠ none ∧
      (resourceArmRouteFilterRuleCreateUpdate m d s).d = d ∧
      (resourceArmRouteFilterRuleCreateUpdate m d s).trace
        = [.Get d.resource_group_name d.route_filter_name d.name] := by
  obtain ⟨hg, hc⟩ := h
  unfold resourceArmRouteFilterRuleCreateUpdate
  rw [if_pos hg]
  cases he : (createUpdateExisting m d s).err with
  | some err =>
    cases hnf : ResponseWasNotFound (createUpdateExisting m d s).result.Response with
    | false => simp [he, hnf]
    | true =>
      rcases hc with ⟨_, h2⟩ | ⟨id, hid, hne⟩
      · simp [hnf] at h2
      · simp [he, hnf, hid, hne]
  | none =>
    rcases hc with ⟨h1, _⟩ | ⟨id, hid, hne⟩
    · exact absurd he h1
    · simp [he, hid, hne]

/-- When the import guard does not stop the handler, the handler is the write of source lines
106-140 started in the state `stateAtWrite`, preceded by the pre-check `Get` if the guard ran. -/
theorem createUpdate_of_guard_passes {σ : Type} (m : Meta σ) (d : ResourceData) (s : σ)
    (h : ¬ guardStops m d s) :
    (resourceArmRouteFilterRuleCreateUpdate m d s).err
        = (createUpdateLocked m d (stateAtWrite m d s)).err ∧
      (resourceArmRouteFilterRuleCreateUpdate m d s).d
        = (createUpdateLocked m d (stateAtWrite m d s)).d ∧
      (resourceArmRouteFilterRuleCreateUpdate m d s).state
        = (createUpdateLocked m d (stateAtWrite m d s)).state ∧
      (resourceArmRouteFilterRuleCreateUpdate m d s).trace
        = (if m.ShouldResourcesBeImported && d.IsNewResource
            then [Event.Get d.resource_group_name d.route_filter_name d.name] else []) ++
          .ByName d.route_filter_name m.routeFilterResourceName ::
            (createUpdateLocked m d (stateAtWrite m d s)).trace ++
          [.UnlockByName d.route_filter_name m.routeFilterResourceName] := by
  unfold guardStops at h
  unfold resourceArmRouteFilterRuleCreateUpdate stateAtWrite
  cases hg : (m.ShouldResourcesBeImported && d.IsNewResource) with
  | false => simp [createUpdateWrite]
  | true =>
    simp only [hg, true_and, not_or, not_and, not_exists] at h
    obtain ⟨h1, h2⟩ := h
    simp only [if_true]
    cases he : (createUpdateExisting m d s).err with
    | some err =>
      cases hnf : ResponseWasNotFound (createUpdateExisting m d s).result.Response with
      | false => exact absurd hnf (h1 (by simp [he]))
      | true =>
        cases hid : (createUpdateExisting m d s).result.ID with
        | none => simp [he, hnf, hid, createUpdateWrite]
        | some id =>
          have : id = "" := by
            by_contra hne
            exact h2 id hid hne
          simp [he, hnf, hid, this, createUpdateWrite]
    | none =>
      cases hid : (createUpdateExisting m d s).result.ID with
      | none => simp [he, hid, createUpdateWrite]
      | some id =>
        have : id = "" := by
          by_contra hne
          exact h2 id hid hne
        simp [he, hid, this, createUpdateWrite]

/-- Against a remote faithful at the key, Read of resource data that carries an identifier the
remote reports for the key succeeds, whatever the attributes held before, and fills the
attributes from the key and the stored properties. -/
theorem read_faithful {σ : Type} (m : Meta σ)
    (stored : σ → Option RouteFilterRulePropertiesFormat) (ident : σ → String)
    (g : String) (f : String) (r : String) (hf : FaithfulAt m stored ident g f r)
    (d : ResourceData) (s : σ) (s0 : σ) (p : RouteFilterRulePropertiesFormat)
    (hid : d.Id = ident s0) (hs : stored s = some p) :
    (resourceArmRouteFilterRuleRead m d s).err = none ∧
      (resourceArmRouteFilterRuleRead m d s).d
        = { Id := d.Id, IsNewResource := d.IsNewResource, name := r, resource_group_name := g,
            route_filter_name := f, access := p.Access,
            rule_type := p.RouteFilterRuleType.getD "",
            communities := FlattenStringSlice p.Communities } ∧
      stored (resourceArmRouteFilterRuleRead m d s).state = some p := by
  obtain ⟨rid, hparse, hg, hfn, hr⟩ := hf.decodes s0
  have hget := hf.get_stored s p hs
  rw [← hg, ← hfn, ← hr] at hget
  obtain ⟨h1, _, h3, h4⟩ := hget
  rw [← hid] at hparse
  rw [read_of_found m d s rid p hparse h1 h3]
  refine ⟨rfl, ?_, h4⟩
  simp [hg, hfn, hr]

/-- Against a remote faithful at the key of `d`, a locked section that returns no error leaves
the resource data equal to the desired data with the identifier the read-back reported, and
the remote holding the submitted properties. -/
theorem locked_faithful {σ : Type} (m : Meta σ)
    (stored : σ → Option RouteFilterRulePropertiesFormat) (ident : σ → String)
    (d : ResourceData)
    (hf : FaithfulAt m stored ident d.resource_group_name d.route_filter_name d.name) (s : σ)
    (hok : (createUpdateLocked m d s).err = none) :
    (createUpdateLocked m d s).d = d.SetId (ident (createUpdateWait m d s).state) ∧
      (createUpdateReadBack m d s).result.ID = some (ident (createUpdateWait m d s).state) ∧
      stored (createUpdateLocked m d s).state = (submittedRule d).Properties := by
  cases h1 : (createUpdateFuture m d s).err with
  | some err => rw [locked_of_submit_error m d s err h1] at hok; simp at hok
  | none =>
    have hput := hf.put_stores s (submittedRule d) h1
    cases h2 : (createUpdateWait m d s).err with
    | some err => rw [locked_of_wait_error m d s err h1 h2] at hok; simp at hok
    | none =>
      have hkeep := hf.wait_keeps (createUpdateFuture m d s).state
        (createUpdateFuture m d s).future h2
      have hst : stored (createUpdateWait m d s).state
          = some { Access := d.access, RouteFilterRuleType := some d.rule_type,
                   Communities := ExpandStringSlice d.communities } := by
        unfold createUpdateWait
        rw [hkeep]
        exact hput
      obtain ⟨h3, h4, _, h6⟩ := hf.get_stored (createUpdateWait m d s).state _ hst
      have hrd := read_faithful m stored ident d.resource_group_name d.route_filter_name d.name
        hf (d.SetId (ident (createUpdateWait m d s).state)) (createUpdateReadBack m d s).state
        (createUpdateWait m d s).state _ rfl h6
      rw [locked_of_id m d s (ident (createUpdateWait m d s).state) h1 h2 h3 h4]
      obtain ⟨_, hd, hs⟩ := hrd
      refine ⟨?_, h4, ?_⟩
      · simp only [hd]
        simp [ResourceData.SetId, ExpandStringSlice, FlattenStringSlice]
      · simp only [hs]
        simp [submittedRule]

/-- The store remote is faithful at the key of `sampleId`. -/
theorem storeMeta_faithful (imp : Bool) :
    FaithfulAt (storeMeta imp) (fun s => s.lookup ("rg1", "rf1", "rule1")) (fun _ => sampleId)
      "rg1" "rf1" "rule1" where
  decodes := fun _ => ⟨_, rfl, by decide, by decide, by decide⟩
  put_stores := by
    intro s rule h
    cases hp : rule.Properties with
    | none => simp [storeMeta, storeClient, hp] at h
    | some p => simp [storeMeta, storeClient, hp, List.lookup]
  wait_keeps := by
    intro s fut _
    simp [storeMeta, storeClient]
  get_stored := by
    intro s p h
    have hid : storeEncode "rg1" "rf1" "rule1" = sampleId := by decide
    simp [storeMeta, storeClient, h, hid]

/-- Against a remote faithful at the key of `d`, a handler call that returns no error leaves
the resource data equal to the desired data with the identifier the read-back reported, and
the remote holding the submitted properties. -/
theorem createUpdate_faithful {σ : Type} (m : Meta σ)
    (stored : σ → Option RouteFilterRulePropertiesFormat) (ident : σ → String)
    (d : ResourceData) (s : σ)
    (hf : FaithfulAt m stored ident d.resource_group_name d.route_filter_name d.name)
    (hok : (resourceArmRouteFilterRuleCreateUpdate m d s).err = none) :
    (resourceArmRouteFilterRuleCreateUpdate m d s).d
        = d.SetId (ident (createUpdateWait m d (stateAtWrite m d s)).state) ∧
      (createUpdateReadBack m d (stateAtWrite m d s)).result.ID
        = some (ident (createUpdateWait m d (stateAtWrite m d s)).state) ∧
      stored (resourceArmRouteFilterRuleCreateUpdate m d s).state
        = (submittedRule d).Properties := by
  by_cases hg : guardStops m d s
  · exact absurd hok (createUpdate_of_guard_stops m d s hg).1
  · obtain ⟨he, hd, hs, _⟩ := createUpdate_of_guard_passes m d s hg
    rw [he] at hok
    rw [hd, hs]
    exact locked_faithful m stored ident d hf (stateAtWrite m d s) hok

/-- The locked section of the create-or-update handler performs no lock operation itself. -/
theorem locked_trace_no_lock {σ : Type} (m : Meta σ) (d : ResourceData) (s : σ) :
    ∀ e ∈ (createUpdateLocked m d s).trace, e.isLockOp = false := by
  cases h1 : (createUpdateFuture m d s).err with
  | some err =>
    rw [locked_of_submit_error m d s err h1]
    simp [Event.isLockOp]
  | none =>
    cases h2 : (createUpdateWait m d s).err with
    | some err =>
      rw [locked_of_wait_error m d s err h1 h2]
      simp [Event.isLockOp]
    | none =>
      cases h3 : (createUpdateReadBack m d s).err with
      | some err =>
        rw [locked_of_read_error m d s err h1 h2 h3]
        simp [Event.isLockOp]
      | none =>
        cases h4 : (createUpdateReadBack m d s).result.ID with
        | none =>
          rw [locked_of_no_id m d s h1 h2 h3 h4]
          simp [Event.isLockOp]
        | some id =>
          rw [locked_of_id m d s id h1 h2 h3 h4]
          intro e he
          simp only [List.mem_append, List.mem_cons] at he
          rcases he with he | he | he
          · simp at he
            rcases he with h | h | h <;> subst h <;> rfl
          · subst he
            rfl
          · exact (read_trace_quiet m _ _ e he).2

/-- The locked keys of a concatenation. -/
theorem lockedKeys_append (a : List Event) (b : List Event) :
    lockedKeys (a ++ b) = lockedKeys a ++ lockedKeys b := by
  induction a with
  | nil => rfl
  | cons e es ih => cases e <;> simp [lockedKeys, ih]

/-- A list of actions without lock operations locks nothing. -/
theorem lockedKeys_of_no_lock (l : List Event) (h : ∀ e ∈ l, e.isLockOp = false) :
    lockedKeys l = [] := by
  induction l with
  | nil => rfl
  | cons e es ih =>
    have he := h e (List.mem_cons_self e es)
    have hes := ih (fun x hx => h x (List.mem_cons_of_mem e hx))
    cases e <;> simp_all [lockedKeys, Event.isLockOp]

/-- The keys locked by one run of the create-or-update handler: none when the import guard stops
it, the filter name with the resource-type constant otherwise. -/
theorem createUpdate_lockedKeys {σ : Type} (m : Meta σ) (d : ResourceData) (s : σ) :
    (guardStops m d s ∧ lockedKeys (resourceArmRouteFilterRuleCreateUpdate m d s).trace = []) ∨
      lockedKeys (resourceArmRouteFilterRuleCreateUpdate m d s).trace
        = [(d.route_filter_name, m.routeFilterResourceName)] := by
  by_cases hg : guardStops m d s
  · left
    refine ⟨hg, ?_⟩
    rw [(createUpdate_of_guard_stops m d s hg).2.2]
    rfl
  · right
    rw [(createUpdate_of_guard_passes m d s hg).2.2.2]
    have h1 : lockedKeys (if m.ShouldResourcesBeImported && d.IsNewResource
        then [Event.Get d.resource_group_name d.route_filter_name d.name] else []) = [] := by
      split <;> rfl
    have h2 := lockedKeys_of_no_lock _ (locked_trace_no_lock m d (stateAtWrite m d s))
    rw [lockedKeys_append, lockedKeys_append, h1]
    simp [lockedKeys, h2]

/-- The keys locked by one run of the delete handler whose identifier decodes: the decoded filter
name with the resource-type constant. -/
theorem delete_lockedKeys {σ : Type} (m : Meta σ) (d : ResourceData) (s : σ) (rid : ResourceID)
    (hp : m.ParseAzureResourceID d.Id = .ok rid) :
    lockedKeys (resourceArmRouteFilterRuleDelete m d s).trace
      = [(rid.path "routeFilters", m.routeFilterResourceName)] := by
  unfold resourceArmRouteFilterRuleDelete
  simp only [hp]
  split
  · simp [lockedKeys]
  · split <;> simp [lockedKeys]

/-! ## C1: import guard -/

/-- C1. Import guard: with import protection enabled and a new resource, when the pre-check `Get`
returns an entity (it reports no failure, or only not-found) whose ID is present and non-empty,
`resourceArmRouteFilterRuleCreateUpdate` fails with the import-as-exists error naming that ID,
its only action is that one `Get` (no `CreateOrUpdate`, no await, no lock operation, no `SetId`),
and the resource data is unchanged. -/
theorem createUpdate_import_guard {σ : Type} (m : Meta σ) (d : ResourceData) (s : σ)
    (id : String)
    (hflag : m.ShouldResourcesBeImported = true) (hnew : d.IsNewResource = true)
    (hget : (createUpdateExisting m d s).err = none ∨
      ResponseWasNotFound (createUpdateExisting m d s).result.Response = true)
    (hid : (createUpdateExisting m d s).result.ID = some id)
    (hne : id ≠ "") :
    (resourceArmRouteFilterRuleCreateUpdate m d s).err
        = some (.ImportAsExistsError "azurerm_route_filter_rule" id) ∧
      (resourceArmRouteFilterRuleCreateUpdate m d s).trace
        = [.Get d.resource_group_name d.route_filter_name d.name] ∧
      (∀ e ∈ (resourceArmRouteFilterRuleCreateUpdate m d s).trace,
        e.isRemoteWrite = false ∧ e.isLockOp = false ∧ e.isSetId = false) ∧
      (resourceArmRouteFilterRuleCreateUpdate m d s).d = d := by
  have key : resourceArmRouteFilterRuleCreateUpdate m d s
      = ⟨some (.ImportAsExistsError "azurerm_route_filter_rule" id), d,
          (createUpdateExisting m d s).state,
          [.Get d.resource_group_name d.route_filter_name d.name]⟩ := by
    unfold resourceArmRouteFilterRuleCreateUpdate
    simp only [hflag, hnew, Bool.and_self, if_true]
    rcases hget with h | h
    · simp [h, hid, hne]
    · simp [h, hid, hne]
  rw [key]
  simp [Event.isRemoteWrite, Event.isLockOp, Event.isSetId]

/-- Witness of C1 on the scripted remote: the pre-check `Get` finds `rule1` with identifier
`sampleId`. -/
theorem createUpdate_import_guard_witness :
    (resourceArmRouteFilterRuleCreateUpdate (scriptedMeta true) (sampleData "" true)
        [.get (sampleRule "Allow" ["12076:53004"]) none]).err
        = some (.ImportAsExistsError "azurerm_route_filter_rule" sampleId) ∧
      (resourceArmRouteFilterRuleCreateUpdate (scriptedMeta true) (sampleData "" true)
        [.get (sampleRule "Allow" ["12076:53004"]) none]).trace = [.Get "rg1" "rf1" "rule1"] ∧
      (resourceArmRouteFilterRuleCreateUpdate (scriptedMeta true) (sampleData "" true)
        [.get (sampleRule "Allow" ["12076:53004"]) none]).d = sampleData "" true :=
  have h := createUpdate_import_guard (scriptedMeta true) (sampleData "" true)
    [.get (sampleRule "Allow" ["12076:53004"]) none] sampleId rfl rfl (Or.inl rfl) rfl
    (by decide)
  ⟨h.1, h.2.1, h.2.2.2⟩

/-! ## C2: vanished entity -/

/-- C2. Vanished-entity reconciliation: when the identifier decodes and the remote `Get` reports
not-found (it fails with a not-found response), `resourceArmRouteFilterRuleRead` returns no error,
sets the identifier to the empty string, and writes no attribute: its only actions are the `Get`
and `SetId ""`, none of them a `d.Set`, and the six attributes keep their values. -/
theorem read_vanished {σ : Type} (m : Meta σ) (d : ResourceData) (s : σ) (rid : ResourceID)
    (hparse : m.ParseAzureResourceID d.Id = .ok rid)
    (herr : (m.RouteFilterRulesClient.Get s rid.ResourceGroup (rid.path "routeFilters")
      (rid.path "routeFilterRules")).err ≠ none)
    (hnf : ResponseWasNotFound (m.RouteFilterRulesClient.Get s rid.ResourceGroup
      (rid.path "routeFilters") (rid.path "routeFilterRules")).result.Response = true) :
    (resourceArmRouteFilterRuleRead m d s).err = none ∧
      (resourceArmRouteFilterRuleRead m d s).d.Id = "" ∧
      (resourceArmRouteFilterRuleRead m d s).trace
        = [.Get rid.ResourceGroup (rid.path "routeFilters") (rid.path "routeFilterRules"),
           .SetId ""] ∧
      (∀ e ∈ (resourceArmRouteFilterRuleRead m d s).trace, ∀ key, e.isSetOf key = false) ∧
      (resourceArmRouteFilterRuleRead m d s).d.attributes = d.attributes := by
  rw [read_of_not_found m d s rid hparse herr hnf]
  simp [ResourceData.SetId, ResourceData.attributes, Event.isSetOf]

/-- Witness of C2 on the scripted remote: `Get` answers 404 for `sampleId`. -/
theorem read_vanished_witness :
    (resourceArmRouteFilterRuleRead (scriptedMeta true) (sampleData sampleId false)
        [.get notFoundRule (some (.raised "not found"))]).err = none ∧
      (resourceArmRouteFilterRuleRead (scriptedMeta true) (sampleData sampleId false)
        [.get notFoundRule (some (.raised "not found"))]).d.Id = "" ∧
      (resourceArmRouteFilterRuleRead (scriptedMeta true) (sampleData sampleId false)
        [.get notFoundRule (some (.raised "not found"))]).d.attributes
        = (sampleData sampleId false).attributes :=
  have h := read_vanished (scriptedMeta true) (sampleData sampleId false)
    [.get notFoundRule (some (.raised "not found"))]
    { SubscriptionID := "sub1", ResourceGroup := "rg1",
      Path := [("providers", "Microsoft.Network"), ("routeFilters", "rf1"),
               ("routeFilterRules", "rule1")] }
    rfl (by decide) (by decide)
  ⟨h.1, h.2.1, h.2.2.2.2⟩

/-! ## C3: decode failure -/

/-- C3. Decode failure propagation: when the ID decoder fails on the identifier, both
`resourceArmRouteFilterRuleRead` and `resourceArmRouteFilterRuleDelete` return exactly the
decoder's error, perform no action at all (no `Get`, no `Delete`, no lock operation, no write to
the resource data), and leave the resource data and the remote state unchanged. -/
theorem read_delete_decode_failure {σ : Type} (m : Meta σ) (d : ResourceData) (s : σ)
    (err : Error) (hparse : m.ParseAzureResourceID d.Id = .error err) :
    ((resourceArmRouteFilterRuleRead m d s).err = some err ∧
      (resourceArmRouteFilterRuleRead m d s).trace = [] ∧
      (resourceArmRouteFilterRuleRead m d s).d = d ∧
      (resourceArmRouteFilterRuleRead m d s).state = s) ∧
    ((resourceArmRouteFilterRuleDelete m d s).err = some err ∧
      (resourceArmRouteFilterRuleDelete m d s).trace = [] ∧
      (resourceArmRouteFilterRuleDelete m d s).d = d ∧
      (resourceArmRouteFilterRuleDelete m d s).state = s) := by
  constructor
  · rw [read_of_parse_error m d s err hparse]
    simp
  · unfold resourceArmRouteFilterRuleDelete
    simp [hparse]

/-- Witness of C3: the identifier `not-a-valid-id` on the scripted remote. -/
theorem read_delete_decode_failure_witness :
    ((resourceArmRouteFilterRuleRead (scriptedMeta true) (sampleData "not-a-valid-id" false)
        []).err = some (.raised "Cannot parse Azure ID") ∧
      (resourceArmRouteFilterRuleRead (scriptedMeta true) (sampleData "not-a-valid-id" false)
        []).trace = []) ∧
    ((resourceArmRouteFilterRuleDelete (scriptedMeta true) (sampleData "not-a-valid-id" false)
        []).err = some (.raised "Cannot parse Azure ID") ∧
      (resourceArmRouteFilterRuleDelete (scriptedMeta true) (sampleData "not-a-valid-id" false)
        []).trace = []) :=
  have h := read_delete_decode_failure (scriptedMeta true) (sampleData "not-a-valid-id" false)
    [] (.raised "Cannot parse Azure ID") rfl
  ⟨⟨h.1.1, h.1.2.1⟩, ⟨h.2.1, h.2.2.1⟩⟩

/-! ## C4: round trip -/

/-- C4. Round trip: against a remote that is faithful at the key of the desired rule (a
successful `CreateOrUpdate` stores the submitted properties under the key, `Get` returns the
stored properties with an identifier that decodes to the key), a successful
`resourceArmRouteFilterRuleCreateUpdate` leaves the desired attributes in the resource data with
an identifier that decodes to the key, and `resourceArmRouteFilterRuleRead` on that identifier,
started from any resource data `d0` that carries it (the attributes of `d0` are arbitrary, as
after an import), succeeds and yields `name`, `resource_group_name`, `route_filter_name`,
`access`, `rule_type` and `communities` equal to the desired ones (`communities` as the same
list, in the same order) and keeps the identifier.  It holds for every attribute set, the valid
ones included. -/
theorem create_read_round_trip {σ : Type} (m : Meta σ)
    (stored : σ → Option RouteFilterRulePropertiesFormat) (ident : σ → String)
    (d : ResourceData) (s : σ) (d0 : ResourceData)
    (hf : FaithfulAt m stored ident d.resource_group_name d.route_filter_name d.name)
    (hok : (resourceArmRouteFilterRuleCreateUpdate m d s).err = none)
    (hid : d0.Id = (resourceArmRouteFilterRuleCreateUpdate m d s).d.Id) :
    (resourceArmRouteFilterRuleCreateUpdate m d s).d.attributes = d.attributes ∧
      (∃ rid, m.ParseAzureResourceID (resourceArmRouteFilterRuleCreateUpdate m d s).d.Id
          = .ok rid ∧
        rid.ResourceGroup = d.resource_group_name ∧
        rid.path "routeFilters" = d.route_filter_name ∧
        rid.path "routeFilterRules" = d.name) ∧
      (resourceArmRouteFilterRuleRead m d0
        (resourceArmRouteFilterRuleCreateUpdate m d s).state).err = none ∧
      (resourceArmRouteFilterRuleRead m d0
        (resourceArmRouteFilterRuleCreateUpdate m d s).state).d.attributes = d.attributes ∧
      (resourceArmRouteFilterRuleRead m d0
        (resourceArmRouteFilterRuleCreateUpdate m d s).state).d.Id
        = (resourceArmRouteFilterRuleCreateUpdate m d s).d.Id := by
  obtain ⟨hd, _, hst⟩ := createUpdate_faithful m stored ident d s hf hok
  have hid0 : d0.Id = ident (createUpdateWait m d (stateAtWrite m d s)).state := by
    rw [hid, hd]
    rfl
  have hrd := read_faithful m stored ident d.resource_group_name d.route_filter_name d.name
    hf d0 (resourceArmRouteFilterRuleCreateUpdate m d s).state
    (createUpdateWait m d (stateAtWrite m d s)).state _ hid0 hst
  obtain ⟨hr1, hr2, _⟩ := hrd
  refine ⟨?_, ?_, hr1, ?_, ?_⟩
  · rw [hd]
    rfl
  · rw [hd]
    exact hf.decodes _
  · rw [hr2]
    simp [ResourceData.attributes, submittedRule, ExpandStringSlice, FlattenStringSlice]
  · rw [hr2, hid]

/-- Witness of C4: creating the rule of the acceptance test `basic` on the empty store remote,
with import protection on, then reading it back from resource data that holds the identifier
only. -/
theorem create_read_round_trip_witness :
    (resourceArmRouteFilterRuleCreateUpdate (storeMeta true) (sampleData "" true) []).err = none ∧
      (resourceArmRouteFilterRuleRead (storeMeta true) (bareData sampleId)
        (resourceArmRouteFilterRuleCreateUpdate (storeMeta true) (sampleData "" true)
          []).state).err = none ∧
      (resourceArmRouteFilterRuleRead (storeMeta true) (bareData sampleId)
        (resourceArmRouteFilterRuleCreateUpdate (storeMeta true) (sampleData "" true)
          []).state).d.attributes = (sampleData "" true).attributes ∧
      (resourceArmRouteFilterRuleRead (storeMeta true) (bareData sampleId)
        (resourceArmRouteFilterRuleCreateUpdate (storeMeta true) (sampleData "" true)
          []).state).d.Id
        = (resourceArmRouteFilterRuleCreateUpdate (storeMeta true) (sampleData "" true) []).d.Id :=
  have h := create_read_round_trip (storeMeta true) (fun s => s.lookup ("rg1", "rf1", "rule1"))
    (fun _ => sampleId) (sampleData "" true) [] (bareData sampleId) (storeMeta_faithful true)
    (by decide) (by decide)
  ⟨by decide, h.2.2.1, h.2.2.2.1, h.2.2.2.2⟩

/-! ## C5: stable identifier under update -/

/-- C5. Stable identifier under update: against a remote faithful at a rule key whose reported
identifier for the key is stable (`hstable`), for desired states `d1` and `d2` on that key (equal
or different), a successful `resourceArmRouteFilterRuleCreateUpdate` of `d1` followed by a
successful one of `d2` sets the identifier the second read-back reported, which equals the one
set by the first call; a following `resourceArmRouteFilterRuleRead` on that identifier, started
from any resource data `d0` that carries it, succeeds, keeps the identifier and reports exactly
the attributes of `d2`, in particular its `access`, `rule_type` and `communities`; and when the
two desired states are equal, the attributes after the second call, and those a Read reports,
equal those after the first call. -/
theorem update_keeps_identifier {σ : Type} (m : Meta σ)
    (stored : σ → Option RouteFilterRulePropertiesFormat) (ident : σ → String)
    (d1 : ResourceData) (d2 : ResourceData) (s : σ) (d0 : ResourceData)
    (hname : d2.name = d1.name) (hgroup : d2.resource_group_name = d1.resource_group_name)
    (hfilter : d2.route_filter_name = d1.route_filter_name)
    (hf : FaithfulAt m stored ident d1.resource_group_name d1.route_filter_name d1.name)
    (hstable : ∀ a b, ident a = ident b)
    (h1 : (resourceArmRouteFilterRuleCreateUpdate m d1 s).err = none)
    (h2 : (resourceArmRouteFilterRuleCreateUpdate m d2
      (resourceArmRouteFilterRuleCreateUpdate m d1 s).state).err = none)
    (hid : d0.Id = (resourceArmRouteFilterRuleCreateUpdate m d2
      (resourceArmRouteFilterRuleCreateUpdate m d1 s).state).d.Id) :
    (createUpdateReadBack m d2 (stateAtWrite m d2
        (resourceArmRouteFilterRuleCreateUpdate m d1 s).state)).result.ID
        = some (resourceArmRouteFilterRuleCreateUpdate m d2
          (resourceArmRouteFilterRuleCreateUpdate m d1 s).state).d.Id ∧
      (resourceArmRouteFilterRuleCreateUpdate m d2
        (resourceArmRouteFilterRuleCreateUpdate m d1 s).state).d.Id
        = (resourceArmRouteFilterRuleCreateUpdate m d1 s).d.Id ∧
      (resourceArmRouteFilterRuleRead m d0
        (resourceArmRouteFilterRuleCreateUpdate m d2
          (resourceArmRouteFilterRuleCreateUpdate m d1 s).state).state).err = none ∧
      (resourceArmRouteFilterRuleRead m d0
        (resourceArmRouteFilterRuleCreateUpdate m d2
          (resourceArmRouteFilterRuleCreateUpdate m d1 s).state).state).d.Id
        = (resourceArmRouteFilterRuleCreateUpdate m d1 s).d.Id ∧
      (resourceArmRouteFilterRuleRead m d0
        (resourceArmRouteFilterRuleCreateUpdate m d2
          (resourceArmRouteFilterRuleCreateUpdate m d1 s).state).state).d.attributes
        = d2.attributes ∧
      (d2.attributes = d1.attributes →
        (resourceArmRouteFilterRuleCreateUpdate m d2
          (resourceArmRouteFilterRuleCreateUpdate m d1 s).state).d.attributes
          = (resourceArmRouteFilterRuleCreateUpdate m d1 s).d.attributes ∧
        (resourceArmRouteFilterRuleRead m d0
          (resourceArmRouteFilterRuleCreateUpdate m d2
            (resourceArmRouteFilterRuleCreateUpdate m d1 s).state).state).d.attributes
          = (resourceArmRouteFilterRuleRead m d0
            (resourceArmRouteFilterRuleCreateUpdate m d1 s).state).d.attributes) := by
  have hf2 : FaithfulAt m stored ident d2.resource_group_name d2.route_filter_name d2.name := by
    rw [hname, hgroup, hfilter]
    exact hf
  obtain ⟨e1, _, hst1⟩ := createUpdate_faithful m stored ident d1 s hf h1
  obtain ⟨e2, hrb, hst2⟩ := createUpdate_faithful m stored ident d2
    (resourceArmRouteFilterRuleCreateUpdate m d1 s).state hf2 h2
  have hid0 : d0.Id = ident s := by
    rw [hid, e2]
    exact hstable _ _
  have hrd2 := read_faithful m stored ident d2.resource_group_name d2.route_filter_name d2.name
    hf2 d0 (resourceArmRouteFilterRuleCreateUpdate m d2
      (resourceArmRouteFilterRuleCreateUpdate m d1 s).state).state s _ hid0 hst2
  have hrd1 := read_faithful m stored ident d1.resource_group_name d1.route_filter_name d1.name
    hf d0 (resourceArmRouteFilterRuleCreateUpdate m d1 s).state s _ hid0 hst1
  obtain ⟨r1, r2, _⟩ := hrd2
  obtain ⟨_, q2, _⟩ := hrd1
  have hsame : (resourceArmRouteFilterRuleCreateUpdate m d2
      (resourceArmRouteFilterRuleCreateUpdate m d1 s).state).d.Id
      = (resourceArmRouteFilterRuleCreateUpdate m d1 s).d.Id := by
    rw [e1, e2]
    exact hstable _ _
  refine ⟨?_, hsame, r1, ?_, ?_, ?_⟩
  · rw [hrb, e2]
    rfl
  · rw [r2, ← hsame, hid]
  · rw [r2]
    simp [ResourceData.attributes, submittedRule, ExpandStringSlice, FlattenStringSlice]
  · intro heq
    constructor
    · rw [e1, e2]
      simpa [ResourceData.attributes, ResourceData.SetId] using heq
    · rw [r2, q2]
      simp only [ResourceData.attributes, submittedRule, ExpandStringSlice, FlattenStringSlice,
        Option.getD_some] at heq ⊢
      simpa using heq

/-- Witness of C5: the update scenario of the acceptance tests on the store remote, `Allow` with
community `12076:53004` first, then `Deny` with community `12076:52004`, then a Read from
resource data that holds the identifier only. -/
theorem update_keeps_identifier_witness :
    (resourceArmRouteFilterRuleCreateUpdate (storeMeta true) (sampleDataDeny sampleId false)
        (resourceArmRouteFilterRuleCreateUpdate (storeMeta true) (sampleData "" true)
          []).state).d.Id
        = (resourceArmRouteFilterRuleCreateUpdate (storeMeta true) (sampleData "" true) []).d.Id ∧
      (resourceArmRouteFilterRuleRead (storeMeta true) (bareData sampleId)
        (resourceArmRouteFilterRuleCreateUpdate (storeMeta true) (sampleDataDeny sampleId false)
          (resourceArmRouteFilterRuleCreateUpdate (storeMeta true) (sampleData "" true)
            []).state).state).d.attributes
        = (sampleDataDeny sampleId false).attributes :=
  have h := update_keeps_identifier (storeMeta true) (fun s => s.lookup ("rg1", "rf1", "rule1"))
    (fun _ => sampleId) (sampleData "" true) (sampleDataDeny sampleId false) []
    (bareData sampleId) rfl rfl rfl (storeMeta_faithful true) (fun _ _ => rfl)
    (by decide) (by decide) (by decide)
  ⟨h.2.1, h.2.2.2.2.1⟩

/-! ## C6: critical section -/

/-- C6. Critical section: for every behaviour of the remote client, a run of
`resourceArmRouteFilterRuleCreateUpdate` either performs no remote write and no lock operation,
or performs `locks.ByName` on the key of the filter exactly once, every `CreateOrUpdate`
submission and await after it, and `locks.UnlockByName` on the same key exactly once, as the last
action before it returns.  The same holds for `resourceArmRouteFilterRuleDelete` with the filter
name decoded from the identifier; when the identifier does not decode, it performs no action. -/
theorem critical_section {σ : Type} (m : Meta σ) (d : ResourceData) (s : σ) :
    WritesInsideLock d.route_filter_name m.routeFilterResourceName
        (resourceArmRouteFilterRuleCreateUpdate m d s).trace ∧
      (match m.ParseAzureResourceID d.Id with
        | .ok rid =>
          WritesInsideLock (rid.path "routeFilters") m.routeFilterResourceName
            (resourceArmRouteFilterRuleDelete m d s).trace
        | .error _ => (resourceArmRouteFilterRuleDelete m d s).trace = []) := by
  constructor
  · by_cases hg : guardStops m d s
    · left
      rw [(createUpdate_of_guard_stops m d s hg).2.2]
      simp [Event.isRemoteWrite, Event.isLockOp]
    · right
      refine ⟨if m.ShouldResourcesBeImported && d.IsNewResource
          then [Event.Get d.resource_group_name d.route_filter_name d.name] else [],
        (createUpdateLocked m d (stateAtWrite m d s)).trace,
        (createUpdate_of_guard_passes m d s hg).2.2.2, ?_, locked_trace_no_lock m d _⟩
      intro e he
      split at he
      · simp at he
        subst he
        simp [Event.isRemoteWrite, Event.isLockOp]
      · simp at he
  · cases hp : m.ParseAzureResourceID d.Id with
    | error err =>
      unfold resourceArmRouteFilterRuleDelete
      simp [hp]
    | ok rid =>
      right
      unfold resourceArmRouteFilterRuleDelete
      simp only [hp]
      cases h1 : (m.RouteFilterRulesClient.Delete s rid.ResourceGroup (rid.path "routeFilters")
          (rid.path "routeFilterRules")).err with
      | some err =>
        exact ⟨[], [.Delete rid.ResourceGroup (rid.path "routeFilters")
          (rid.path "routeFilterRules")], by simp [h1], by simp, by simp [Event.isLockOp]⟩
      | none =>
        cases h2 : (m.RouteFilterRulesClient.WaitForCompletionRef
            (m.RouteFilterRulesClient.Delete s rid.ResourceGroup (rid.path "routeFilters")
              (rid.path "routeFilterRules")).state
            (m.RouteFilterRulesClient.Delete s rid.ResourceGroup (rid.path "routeFilters")
              (rid.path "routeFilterRules")).future).err with
        | some err =>
          exact ⟨[], [.Delete rid.ResourceGroup (rid.path "routeFilters")
              (rid.path "routeFilterRules"),
            .WaitForCompletionRef (m.RouteFilterRulesClient.Delete s rid.ResourceGroup
              (rid.path "routeFilters") (rid.path "routeFilterRules")).future],
            by simp [h1, h2], by simp, by simp [Event.isLockOp]⟩
        | none =>
          exact ⟨[], [.Delete rid.ResourceGroup (rid.path "routeFilters")
              (rid.path "routeFilterRules"),
            .WaitForCompletionRef (m.RouteFilterRulesClient.Delete s rid.ResourceGroup
              (rid.path "routeFilters") (rid.path "routeFilterRules")).future],
            by simp [h1, h2], by simp, by simp [Event.isLockOp]⟩

/-! ## C7: the lock key -/

/-- C7, as stated, fails: two create-or-update runs for filters of the same name `rf1` in the
different groups `rg1` and `rg2` lock the same key, so "same key if and only if same group and
same filter name" is false. -/
theorem lock_key_ignores_group :
    ¬ (lockedKeys (resourceArmRouteFilterRuleCreateUpdate (scriptedMeta false)
          (sampleData "" false) []).trace
        = lockedKeys (resourceArmRouteFilterRuleCreateUpdate (scriptedMeta false)
          { sampleData "" false with resource_group_name := "rg2" } []).trace ↔
      ((sampleData "" false).resource_group_name = "rg2" ∧
        (sampleData "" false).route_filter_name = "rf1")) := by
  decide

/-- C7, amended. The key that the create-or-update and the delete handlers lock on is the filter
name paired with the constant `routeFilterResourceName`: a run locks either nothing (the import
guard stopped it, or the identifier did not decode) or exactly that key, whatever the rule name
and the group are; hence two runs that acquire the lock lock the same key if and only if their
filter names are equal. -/
theorem lock_key_is_filter_name {σ : Type} (m : Meta σ) (d1 : ResourceData) (d2 : ResourceData)
    (s1 : σ) (s2 : σ) :
    (lockedKeys (resourceArmRouteFilterRuleCreateUpdate m d1 s1).trace = [] ∨
      lockedKeys (resourceArmRouteFilterRuleCreateUpdate m d1 s1).trace
        = [(d1.route_filter_name, m.routeFilterResourceName)]) ∧
    (match m.ParseAzureResourceID d1.Id with
      | .ok rid =>
        lockedKeys (resourceArmRouteFilterRuleDelete m d1 s1).trace
          = [(rid.path "routeFilters", m.routeFilterResourceName)]
      | .error _ => lockedKeys (resourceArmRouteFilterRuleDelete m d1 s1).trace = []) ∧
    (lockedKeys (resourceArmRouteFilterRuleCreateUpdate m d1 s1).trace ≠ [] →
      lockedKeys (resourceArmRouteFilterRuleCreateUpdate m d2 s2).trace ≠ [] →
      (lockedKeys (resourceArmRouteFilterRuleCreateUpdate m d1 s1).trace
          = lockedKeys (resourceArmRouteFilterRuleCreateUpdate m d2 s2).trace ↔
        d1.route_filter_name = d2.route_filter_name)) ∧
    (∀ rid1 rid2, m.ParseAzureResourceID d1.Id = .ok rid1 →
      m.ParseAzureResourceID d2.Id = .ok rid2 →
      (lockedKeys (resourceArmRouteFilterRuleDelete m d1 s1).trace
          = lockedKeys (resourceArmRouteFilterRuleDelete m d2 s2).trace ↔
        rid1.path "routeFilters" = rid2.path "routeFilters")) := by
  refine ⟨?_, ?_, ?_, ?_⟩
  · rcases createUpdate_lockedKeys m d1 s1 with h | h
    · exact Or.inl h.2
    · exact Or.inr h
  · cases hp : m.ParseAzureResourceID d1.Id with
    | error err =>
      have : resourceArmRouteFilterRuleDelete m d1 s1 = ⟨some err, d1, s1, []⟩ := by
        unfold resourceArmRouteFilterRuleDelete
        simp [hp]
      simp [this, lockedKeys]
    | ok rid => exact delete_lockedKeys m d1 s1 rid hp
  · intro h1 h2
    rcases createUpdate_lockedKeys m d1 s1 with k1 | k1
    · exact absurd k1.2 h1
    · rcases createUpdate_lockedKeys m d2 s2 with k2 | k2
      · exact absurd k2.2 h2
      · rw [k1, k2]
        simp
  · intro rid1 rid2 p1 p2
    rw [delete_lockedKeys m d1 s1 rid1 p1, delete_lockedKeys m d2 s2 rid2 p2]
    simp

/-- Witness of C7, amended: two runs on the scripted remote for `rf1` in groups `rg1` and
`rg2`. -/
theorem lock_key_is_filter_name_witness :
    (lockedKeys (resourceArmRouteFilterRuleCreateUpdate (scriptedMeta false)
          (sampleData "" false) []).trace
        = lockedKeys (resourceArmRouteFilterRuleCreateUpdate (scriptedMeta false)
          { sampleData "" false with resource_group_name := "rg2" } []).trace ↔
      (sampleData "" false).route_filter_name
        = ({ sampleData "" false with resource_group_name := "rg2" } :
            ResourceData).route_filter_name) :=
  (lock_key_is_filter_name (scriptedMeta false) (sampleData "" false)
    { sampleData "" false with resource_group_name := "rg2" } [] []).2.2.1
    (by decide) (by decide)

/-! ## C8: read-after-write check -/

/-- C8. Read-after-write consistency check: when the handler reaches the submission and
`CreateOrUpdate` and its await succeed, then (a) if the read-back `Get` succeeds but reports no
identifier, `resourceArmRouteFilterRuleCreateUpdate` fails with the "Cannot read ... ID" error,
never calls `SetId` and leaves the resource data unchanged; and (b) if the read-back `Get` itself
fails, the handler fails with exactly that error, never calls `SetId` and leaves the resource data
unchanged. -/
theorem createUpdate_read_back_check {σ : Type} (m : Meta σ) (d : ResourceData) (s : σ)
    (hsub : ∃ e ∈ (resourceArmRouteFilterRuleCreateUpdate m d s).trace,
      e.isCreateOrUpdate = true)
    (hf : (createUpdateFuture m d (stateAtWrite m d s)).err = none)
    (hw : (createUpdateWait m d (stateAtWrite m d s)).err = none) :
    ((createUpdateReadBack m d (stateAtWrite m d s)).err = none →
      (createUpdateReadBack m d (stateAtWrite m d s)).result.ID = none →
      (resourceArmRouteFilterRuleCreateUpdate m d s).err
          = some (.Errorf
              "Cannot read Route Filter Rule %q (Route Filter %q / Resource Group %q) ID"
              [d.route_filter_name, d.name, d.resource_group_name]) ∧
        (∀ e ∈ (resourceArmRouteFilterRuleCreateUpdate m d s).trace, e.isSetId = false) ∧
        (resourceArmRouteFilterRuleCreateUpdate m d s).d = d) ∧
    (∀ err, (createUpdateReadBack m d (stateAtWrite m d s)).err = some err →
      (resourceArmRouteFilterRuleCreateUpdate m d s).err = some err ∧
        (∀ e ∈ (resourceArmRouteFilterRuleCreateUpdate m d s).trace, e.isSetId = false) ∧
        (resourceArmRouteFilterRuleCreateUpdate m d s).d = d) := by
  have hg : ¬ guardStops m d s := by
    intro hg
    obtain ⟨e, he, hc⟩ := hsub
    rw [(createUpdate_of_guard_stops m d s hg).2.2] at he
    simp at he
    subst he
    simp [Event.isCreateOrUpdate] at hc
  obtain ⟨he, hd, _, ht⟩ := createUpdate_of_guard_passes m d s hg
  rw [he, hd, ht]
  have hpre : ∀ e ∈ (if m.ShouldResourcesBeImported && d.IsNewResource
      then [Event.Get d.resource_group_name d.route_filter_name d.name] else []),
      e.isSetId = false := by
    intro e hmem
    split at hmem
    · simp at hmem
      subst hmem
      rfl
    · simp at hmem
  constructor
  · intro hr hid
    rw [locked_of_no_id m d _ hf hw hr hid]
    refine ⟨rfl, ?_, rfl⟩
    intro e hmem
    simp only [List.mem_append, List.mem_cons, List.mem_singleton, List.mem_nil_iff,
      or_false] at hmem
    rcases hmem with (h | h | h | h | h) | h
    · exact hpre e h
    · subst h; rfl
    · subst h; rfl
    · subst h; rfl
    · subst h; rfl
    · subst h; rfl
  · intro err hr
    rw [locked_of_read_error m d _ err hf hw hr]
    refine ⟨rfl, ?_, rfl⟩
    intro e hmem
    simp only [List.mem_append, List.mem_cons, List.mem_singleton, List.mem_nil_iff,
      or_false] at hmem
    rcases hmem with (h | h | h | h | h) | h
    · exact hpre e h
    · subst h; rfl
    · subst h; rfl
    · subst h; rfl
    · subst h; rfl
    · subst h; rfl

/-- Witness of C8 on the scripted remote: the read-back answers without an identifier. -/
theorem createUpdate_read_back_check_witness :
    (resourceArmRouteFilterRuleCreateUpdate (scriptedMeta true) (sampleData "" true)
        scriptNoId).err
        = some (.Errorf
            "Cannot read Route Filter Rule %q (Route Filter %q / Resource Group %q) ID"
            ["rf1", "rule1", "rg1"]) ∧
      (resourceArmRouteFilterRuleCreateUpdate (scriptedMeta true) (sampleData "" true)
        scriptNoId).d = sampleData "" true :=
  have h := (createUpdate_read_back_check (scriptedMeta true) (sampleData "" true) scriptNoId
    (by decide) (by decide) (by decide)).1 (by decide) (by decide)
  ⟨h.1, h.2.2⟩

/-! ## C9: what a successful create-or-update leaves behind -/

/-- C9, as stated, fails: on a remote where the rule is gone when the final Read looks for it,
`resourceArmRouteFilterRuleCreateUpdate` returns without error although the read-back `Get`
reported the identifier `sampleId`, and the resource identifier is empty. -/
theorem createUpdate_success_with_empty_id :
    (resourceArmRouteFilterRuleCreateUpdate (scriptedMeta false) (sampleData "" true)
        scriptVanishes).err = none ∧
      (createUpdateReadBack (scriptedMeta false) (sampleData "" true)
        (stateAtWrite (scriptedMeta false) (sampleData "" true) scriptVanishes)).result.ID
        = some sampleId ∧
      (resourceArmRouteFilterRuleCreateUpdate (scriptedMeta false) (sampleData "" true)
        scriptVanishes).d.Id = "" := by
  decide

/-- C9, amended. Whenever `resourceArmRouteFilterRuleCreateUpdate` returns without error, the
read-back `Get` succeeded and reported an identifier that decodes, and either the `Get` of the
final Read reported not-found, in which case the resource identifier is empty and the attributes
are the desired ones, or that `Get` succeeded, in which case the resource identifier equals the
one reported by the read-back, `name`, `resource_group_name` and `route_filter_name` are the
segments decoded from it, and `access`, `rule_type` and `communities` are those of the properties
that `Get` returned (the desired ones when it returned no properties). -/
theorem createUpdate_success_state {σ : Type} (m : Meta σ) (d : ResourceData) (s : σ)
    (hok : (resourceArmRouteFilterRuleCreateUpdate m d s).err = none) :
    ∃ id rid,
      (createUpdateReadBack m d (stateAtWrite m d s)).err = none ∧
      (createUpdateReadBack m d (stateAtWrite m d s)).result.ID = some id ∧
      m.ParseAzureResourceID id = .ok rid ∧
      (((readResp m rid (createUpdateReadBack m d (stateAtWrite m d s)).state).err ≠ none ∧
          ResponseWasNotFound (readResp m rid
            (createUpdateReadBack m d (stateAtWrite m d s)).state).result.Response = true ∧
          (resourceArmRouteFilterRuleCreateUpdate m d s).d = d.SetId "") ∨
        ((readResp m rid (createUpdateReadBack m d (stateAtWrite m d s)).state).err = none ∧
          (resourceArmRouteFilterRuleCreateUpdate m d s).d.Id = id ∧
          (resourceArmRouteFilterRuleCreateUpdate m d s).d.name = rid.path "routeFilterRules" ∧
          (resourceArmRouteFilterRuleCreateUpdate m d s).d.resource_group_name
            = rid.ResourceGroup ∧
          (resourceArmRouteFilterRuleCreateUpdate m d s).d.route_filter_name
            = rid.path "routeFilters" ∧
          (match (readResp m rid
              (createUpdateReadBack m d (stateAtWrite m d s)).state).result.Properties with
            | some p =>
              (resourceArmRouteFilterRuleCreateUpdate m d s).d.access = p.Access ∧
              (resourceArmRouteFilterRuleCreateUpdate m d s).d.rule_type
                = p.RouteFilterRuleType.getD "" ∧
              (resourceArmRouteFilterRuleCreateUpdate m d s).d.communities
                = FlattenStringSlice p.Communities
            | none =>
              (resourceArmRouteFilterRuleCreateUpdate m d s).d.access = d.access ∧
              (resourceArmRouteFilterRuleCreateUpdate m d s).d.rule_type = d.rule_type ∧
              (resourceArmRouteFilterRuleCreateUpdate m d s).d.communities = d.communities))) := by
  by_cases hg : guardStops m d s
  · exact absurd hok (createUpdate_of_guard_stops m d s hg).1
  obtain ⟨he, hd, _, _⟩ := createUpdate_of_guard_passes m d s hg
  rw [he] at hok
  rw [hd]
  cases h1 : (createUpdateFuture m d (stateAtWrite m d s)).err with
  | some err => rw [locked_of_submit_error m d _ err h1] at hok; simp at hok
  | none =>
  cases h2 : (createUpdateWait m d (stateAtWrite m d s)).err with
  | some err => rw [locked_of_wait_error m d _ err h1 h2] at hok; simp at hok
  | none =>
  cases h3 : (createUpdateReadBack m d (stateAtWrite m d s)).err with
  | some err => rw [locked_of_read_error m d _ err h1 h2 h3] at hok; simp at hok
  | none =>
  cases h4 : (createUpdateReadBack m d (stateAtWrite m d s)).result.ID with
  | none => rw [locked_of_no_id m d _ h1 h2 h3 h4] at hok; simp at hok
  | some id =>
  rw [locked_of_id m d _ id h1 h2 h3 h4] at hok ⊢
  simp only at hok ⊢
  cases hp : m.ParseAzureResourceID id with
  | error err =>
    rw [read_of_parse_error m (d.SetId id) _ err hp] at hok
    simp at hok
  | ok rid =>
  refine ⟨id, rid, trivial, rfl, hp, ?_⟩
  have hp2 : m.ParseAzureResourceID (d.SetId id).Id = .ok rid := hp
  cases h5 : (readResp m rid (createUpdateReadBack m d (stateAtWrite m d s)).state).err with
  | some err =>
    cases h6 : ResponseWasNotFound (readResp m rid
        (createUpdateReadBack m d (stateAtWrite m d s)).state).result.Response with
    | false =>
      rw [read_of_get_error m (d.SetId id) _ rid err hp2 h5 h6] at hok
      simp at hok
    | true =>
      left
      rw [read_of_not_found m (d.SetId id) _ rid hp2 (by rw [← readResp, h5]; simp) h6]
      simp [ResourceData.SetId]
  | none =>
    right
    cases h6 : (readResp m rid
        (createUpdateReadBack m d (stateAtWrite m d s)).state).result.Properties with
    | some p =>
      rw [read_of_found m (d.SetId id) _ rid p hp2 h5 h6]
      simp [ResourceData.SetId]
    | none =>
      rw [read_of_found_bare m (d.SetId id) _ rid hp2 h5 h6]
      simp [ResourceData.SetId]

/-- Witness of C9, amended: a run on the scripted remote in which every call succeeds. -/
theorem createUpdate_success_state_witness :
    ∃ id rid,
      (createUpdateReadBack (scriptedMeta false) (sampleData "" true)
        (stateAtWrite (scriptedMeta false) (sampleData "" true) scriptSuccess)).result.ID
        = some id ∧
      (scriptedMeta false).ParseAzureResourceID id = .ok rid :=
  have ⟨id, rid, _, h2, h3, _⟩ := createUpdate_success_state (scriptedMeta false)
    (sampleData "" true) scriptSuccess (by decide)
  ⟨id, rid, h2, h3⟩

/-! ## C10: schema validation -/

/-- C10, as stated, fails: the attribute set of the acceptance test `basic` without
`resource_group_name` meets every condition the claim lists, and the declared schema rejects it,
because `resource_group_name` is a required attribute of the schema. -/
theorem schema_rejects_missing_group :
    ¬ (schemaAccepts (resourceArmRouteFilterRuleSchema SchemaResourceGroupName)
          (sampleConfig none) = true ↔
        specAccepts (sampleConfig none) = true) := by
  decide

/-- C10, amended. The declared schema accepts an attribute set if and only if `name` and
`route_filter_name` are non-empty strings, `access` is exactly `Allow` or `Deny`, `rule_type` is
exactly `Community`, `communities` is a list of at least one element all of whose elements are
non-empty strings, and `resource_group_name` passes the resource-group schema of
`azure.SchemaResourceGroupName()`; `name` and `route_filter_name` force a new resource when
changed, `access`, `rule_type` and `communities` do not. -/
theorem schema_accepts_iff (resourceGroupName : Schema) (c : Config) :
    (schemaAccepts (resourceArmRouteFilterRuleSchema resourceGroupName) c = true ↔
      specAccepts c = true ∧ validateField resourceGroupName c.resource_group_name = true) ∧
    forcesNew (resourceArmRouteFilterRuleSchema resourceGroupName) "name" = true ∧
    forcesNew (resourceArmRouteFilterRuleSchema resourceGroupName) "route_filter_name" = true ∧
    forcesNew (resourceArmRouteFilterRuleSchema resourceGroupName) "access" = false ∧
    forcesNew (resourceArmRouteFilterRuleSchema resourceGroupName) "rule_type" = false ∧
    forcesNew (resourceArmRouteFilterRuleSchema resourceGroupName) "communities" = false := by
  have hname : ∀ v, validateField
      { ValueType := .TypeString, Required := true, ForceNew := true,
        ValidateFunc := some StringIsNotEmpty } v = isNonEmptyString v := by
    intro v
    rcases v with _ | s | l <;> simp [validateField, isNonEmptyString, StringIsNotEmpty]
  have haccess : ∀ v, validateField
      { ValueType := .TypeString, Required := true,
        ValidateFunc := some (StringInSlice [Allow, Deny] false) } v
        = (isString "Allow" v || isString "Deny" v) := by
    intro v
    rcases v with _ | s | l <;> simp [validateField, isString, StringInSlice, Allow, Deny]
  have htype : ∀ v, validateField
      { ValueType := .TypeString, Required := true,
        ValidateFunc := some (StringInSlice ["Community"] false) } v
        = isString "Community" v := by
    intro v
    rcases v with _ | s | l <;> simp [validateField, isString, StringInSlice]
  have hcomm : ∀ v, validateField
      { ValueType := .TypeList, Required := true, MinItems := 1,
        Elem := some { ValueType := .TypeString, ValidateFunc := some StringIsNotEmpty } } v
        = isNonEmptyListOfNonEmpty v := by
    intro v
    rcases v with _ | s | l <;>
      simp [validateField, isNonEmptyListOfNonEmpty, StringIsNotEmpty]
  refine ⟨?_, ?_, ?_, ?_, ?_, ?_⟩
  · simp only [schemaAccepts, resourceArmRouteFilterRuleSchema, List.all_cons, List.all_nil,
      hname, haccess, htype, hcomm, specAccepts, Bool.and_eq_true, Bool.and_true]
    simp only [Config.get]
    simp
    tauto
  all_goals simp [forcesNew, resourceArmRouteFilterRuleSchema, List.lookup]

/-! ## C11: step order of create-or-update -/

/-- C11, as stated, fails: in a run on the scripted remote in which every call succeeds, the
handler returns without error, the read-back `Get` follows the await while the lock is still
held, and `locks.UnlockByName` is the last action of the run. -/
theorem release_follows_read_back :
    (resourceArmRouteFilterRuleCreateUpdate (scriptedMeta false) (sampleData "" true)
        scriptSuccess).err = none ∧
      releasedBeforeReadBack (resourceArmRouteFilterRuleCreateUpdate (scriptedMeta false)
        (sampleData "" true) scriptSuccess).trace = false ∧
      afterAwait (resourceArmRouteFilterRuleCreateUpdate (scriptedMeta false)
          (sampleData "" true) scriptSuccess).trace
        = [.Get "rg1" "rf1" "rule1", .SetId sampleId, .Get "rg1" "rf1" "rule1",
           .Set "name" (.str "rule1"), .Set "resource_group_name" (.str "rg1"),
           .Set "route_filter_name" (.str "rf1"), .Set "access" (.str "Allow"),
           .Set "rule_type" (.strPtr (some "Community")),
           .Set "communities" (.list ["12076:53004"]),
           .UnlockByName "rf1" "azurerm_route_filter"] := by
  decide

/-- C11, amended. In every successful execution of `resourceArmRouteFilterRuleCreateUpdate` the
read-back `Get` reports an identifier and the actions are, in order: the pre-check `Get` if the
guard against unimported resources ran, `locks.ByName` on the key of the filter, the
`CreateOrUpdate` submission, its await, the read-back `Get`, `SetId`, the actions of the final
Read, and `locks.UnlockByName` on the same key as the last action; so the lock is released after
the await, after the read-back and after the final Read, and not before the read-back. -/
theorem release_is_last_action {σ : Type} (m : Meta σ) (d : ResourceData) (s : σ)
    (hok : (resourceArmRouteFilterRuleCreateUpdate m d s).err = none) :
    ∃ id,
      (createUpdateReadBack m d (stateAtWrite m d s)).result.ID = some id ∧
      (resourceArmRouteFilterRuleCreateUpdate m d s).trace
        = (if m.ShouldResourcesBeImported && d.IsNewResource
            then [Event.Get d.resource_group_name d.route_filter_name d.name] else []) ++
          [.ByName d.route_filter_name m.routeFilterResourceName,
           .CreateOrUpdate d.resource_group_name d.route_filter_name d.name (submittedRule d),
           .WaitForCompletionRef (createUpdateFuture m d (stateAtWrite m d s)).future,
           .Get d.resource_group_name d.route_filter_name d.name,
           .SetId id] ++
          (resourceArmRouteFilterRuleRead m (d.SetId id)
            (createUpdateReadBack m d (stateAtWrite m d s)).state).trace ++
          [.UnlockByName d.route_filter_name m.routeFilterResourceName] ∧
      (∀ e ∈ (resourceArmRouteFilterRuleRead m (d.SetId id)
          (createUpdateReadBack m d (stateAtWrite m d s)).state).trace, e.isLockOp = false) ∧
      releasedBeforeReadBack (resourceArmRouteFilterRuleCreateUpdate m d s).trace = false := by
  by_cases hg : guardStops m d s
  · exact absurd hok (createUpdate_of_guard_stops m d s hg).1
  obtain ⟨he, _, _, ht⟩ := createUpdate_of_guard_passes m d s hg
  rw [he] at hok
  cases h1 : (createUpdateFuture m d (stateAtWrite m d s)).err with
  | some err => rw [locked_of_submit_error m d _ err h1] at hok; simp at hok
  | none =>
  cases h2 : (createUpdateWait m d (stateAtWrite m d s)).err with
  | some err => rw [locked_of_wait_error m d _ err h1 h2] at hok; simp at hok
  | none =>
  cases h3 : (createUpdateReadBack m d (stateAtWrite m d s)).err with
  | some err => rw [locked_of_read_error m d _ err h1 h2 h3] at hok; simp at hok
  | none =>
  cases h4 : (createUpdateReadBack m d (stateAtWrite m d s)).result.ID with
  | none => rw [locked_of_no_id m d _ h1 h2 h3 h4] at hok; simp at hok
  | some id =>
  rw [locked_of_id m d _ id h1 h2 h3 h4] at ht
  have hshape : (resourceArmRouteFilterRuleCreateUpdate m d s).trace
      = (if m.ShouldResourcesBeImported && d.IsNewResource
          then [Event.Get d.resource_group_name d.route_filter_name d.name] else []) ++
        [.ByName d.route_filter_name m.routeFilterResourceName,
         .CreateOrUpdate d.resource_group_name d.route_filter_name d.name (submittedRule d),
         .WaitForCompletionRef (createUpdateFuture m d (stateAtWrite m d s)).future,
         .Get d.resource_group_name d.route_filter_name d.name,
         .SetId id] ++
        (resourceArmRouteFilterRuleRead m (d.SetId id)
          (createUpdateReadBack m d (stateAtWrite m d s)).state).trace ++
        [.UnlockByName d.route_filter_name m.routeFilterResourceName] := by
    rw [ht]
    simp
  refine ⟨id, rfl, hshape, fun e he => (read_trace_quiet m _ _ e he).2, ?_⟩
  rw [hshape]
  cases hgd : (m.ShouldResourcesBeImported && d.IsNewResource) <;>
    simp [releasedBeforeReadBack, afterAwait, unlockPrecedesGet]

/-- Witness of C11, amended: the successful run on the scripted remote. -/
theorem release_is_last_action_witness :
    ∃ id,
      (createUpdateReadBack (scriptedMeta false) (sampleData "" true)
        (stateAtWrite (scriptedMeta false) (sampleData "" true) scriptSuccess)).result.ID
        = some id ∧
      releasedBeforeReadBack (resourceArmRouteFilterRuleCreateUpdate (scriptedMeta false)
        (sampleData "" true) scriptSuccess).trace = false :=
  have ⟨id, h1, _, _, h4⟩ := release_is_last_action (scriptedMeta false) (sampleData "" true)
    scriptSuccess (by decide)
  ⟨id, h1, h4⟩

end Network
